import Mathlib

/-!
Verification development for the capable-core repository.

This file gives a shallow embedding, in Lean, of the deterministic
control-flow and text-parsing code of the repository (the Docker sandbox
executor and its output parsers in `tools/sandbox_tools.py`, the GitHub
gateway operations in `tools/github_tools.py`, and the CI monitoring loops
in `tools/ci_tools.py`), and proves or refutes the specification's claims
about that code.

Modelling conventions:
- Python regular-expression searches are compiled by hand into scanning
  functions over `List Char`; each compiled matcher is deterministic and
  implements the leftmost-match semantics of `re.search` for its pattern
  (the patterns used by the source are simple enough that greedy matching
  with no backtracking is equivalent, which is argued pattern by pattern
  in the comments).
- Python `float` values are modelled as exact rationals `ℚ`; the numeric
  claims concern which formula is computed, not IEEE rounding.
- External effects (the Docker daemon, the GitHub API, wall-clock time)
  are modelled as explicit oracle/backend records passed to the embedded
  functions; exceptions become `Except`/`Option` values.
-/

namespace CapableCore

/-! ## Primitive text-scanning helpers (hand-compiled regular expressions) -/

/-- Whitespace class of Python's `\s` (ASCII part). -/
def pyWs (c : Char) : Bool :=
  c = ' ' || c = '\t' || c = '\n' || c = '\r' || c = '\x0b' || c = '\x0c'

/-- Split a character list into its maximal leading digit run and the rest
(the greedy match of `\d+` anchored at the head, possibly empty). -/
def digitSpan : List Char → List Char × List Char
  | [] => ([], [])
  | c :: cs =>
    if c.isDigit then
      let p := digitSpan cs
      (c :: p.1, p.2)
    else ([], c :: cs)

/-- Split a character list into its maximal leading `\s*` run and the rest. -/
def wsSpan : List Char → List Char × List Char
  | [] => ([], [])
  | c :: cs =>
    if pyWs c then
      let p := wsSpan cs
      (c :: p.1, p.2)
    else ([], c :: cs)

/-- Numeric value of a digit run, as produced by Python's `int()`. -/
def natOfDigits (ds : List Char) : Nat :=
  ds.foldl (fun n c => n * 10 + (c.toNat - '0'.toNat)) 0

/-- Skip the maximal `\s*` run. -/
def skipWs (s : List Char) : List Char := (wsSpan s).2

/-- Match a literal at the head of the input and return the rest. -/
def expectLit (lit : String) (s : List Char) : Option (List Char) :=
  if lit.data.isPrefixOf s then some (s.drop lit.length) else none

/-- Match `\s+` (at least one whitespace character) greedily. -/
def expectWs1 (s : List Char) : Option (List Char) :=
  match s with
  | [] => none
  | c :: cs => if pyWs c then some (skipWs cs) else none

/-- Match `(\d+)` (a non-empty digit run) greedily and return its value. -/
def expectNum (s : List Char) : Option (Nat × List Char) :=
  let p := digitSpan s
  if p.1.isEmpty then none else some (natOfDigits p.1, p.2)

/-- Value of a `[\d.]+` capture under Python `float()`: digits with at most
one decimal point.  (On a malformed capture such as `1.2.3` Python's
`float()` would raise; the model returns `none` there, a case no claim
exercises.) -/
def decOfChars (l : List Char) : Option ℚ :=
  let ip := digitSpan l
  match ip.2 with
  | [] => if ip.1.isEmpty then none else some (natOfDigits ip.1)
  | '.' :: r2 =>
    let fp := digitSpan r2
    if fp.2.isEmpty && !(ip.1.isEmpty && fp.1.isEmpty) then
      some ((natOfDigits ip.1 : ℚ) + (natOfDigits fp.1 : ℚ) / (10 : ℚ) ^ fp.1.length)
    else none
  | _ => none

/-- Match `([\d.]+)` greedily (maximal run of digits and dots, non-empty)
and return its `float()` value and the rest. -/
def expectDec (s : List Char) : Option (ℚ × List Char) :=
  let run := s.takeWhile (fun c => c.isDigit || c = '.')
  if run.isEmpty then none
  else
    match decOfChars run with
    | some q => some (q, s.drop run.length)
    | none => none

/-- Match `(\d+(?:\.\d+)?)` greedily and return its value and the rest. -/
def expectNumDec (s : List Char) : Option (ℚ × List Char) :=
  let ip := digitSpan s
  if ip.1.isEmpty then none
  else
    match ip.2 with
    | '.' :: r2 =>
      let fp := digitSpan r2
      if fp.1.isEmpty then some ((natOfDigits ip.1 : ℚ), ip.2)
      else some ((natOfDigits ip.1 : ℚ) + (natOfDigits fp.1 : ℚ) / (10 : ℚ) ^ fp.1.length, fp.2)
    | _ => some ((natOfDigits ip.1 : ℚ), ip.2)

/-- Leftmost-match driver: try the anchored matcher at every suffix, in
order, exactly as `re.search` slides its anchor left to right. -/
def scanFor {α : Type} (m : List Char → Option α) : List Char → Option α
  | [] => m []
  | c :: cs =>
    match m (c :: cs) with
    | some v => some v
    | none => scanFor m cs

/-- In-line leftmost-match driver for a lazy `.*?` gap: try the anchored
matcher at every position up to (not across) the next newline, since `.`
does not match a newline. -/
def lineScan {α : Type} (m : List Char → Option α) : List Char → Option α
  | [] => none
  | c :: cs =>
    if c = '\n' then none
    else
      match m (c :: cs) with
      | some v => some v
      | none => lineScan m cs

/-- Count non-overlapping occurrences of a literal, as `re.findall` does for
a pattern with no metacharacters (used for `--- PASS:` and `[NoCoverage]`).
The extra `Nat` argument is structural fuel (one unit per character of the
scanned text suffices), keeping the recursion structural so that the
function reduces definitionally. -/
def countOccurAux (pat : List Char) : Nat → List Char → Nat
  | 0, _ => 0
  | _, [] => 0
  | fuel + 1, c :: cs =>
    if pat.isPrefixOf (c :: cs) then 1 + countOccurAux pat fuel (cs.drop (pat.length - 1))
    else countOccurAux pat fuel cs

/-- String-level occurrence count. -/
def countOccurS (pat s : String) : Nat := countOccurAux pat.data s.data.length s.data

/-! ## Anchored matchers for the individual patterns of the source -/

/-- Anchored `(\d+)lit` (e.g. `(\d+) passed`): a digit run immediately
followed by the literal.  The literal starts with a non-digit, so the
greedy digit run is the only candidate. -/
def atNumLit (lit : String) (s : List Char) : Option Nat := do
  let (n, r) ← expectNum s
  let _ ← expectLit lit r
  pure n

/-- Anchored `lit\s*(\d+)` (e.g. `Passed:\s*(\d+)`). -/
def atLitWsNum (lit : String) (s : List Char) : Option Nat := do
  let r ← expectLit lit s
  let (n, _) ← expectNum (skipWs r)
  pure n

/-- Anchored `lit\s*(\d+)post` (e.g. `Tests:\s*(\d+) passed`). -/
def atLitWsNumLit (lit post : String) (s : List Char) : Option Nat := do
  let r ← expectLit lit s
  let (n, r2) ← expectNum (skipWs r)
  let _ ← expectLit post r2
  pure n

/-- Anchored `(\d+)\s*lit` (e.g. `(\d+)\s*mutants`). -/
def atNumWsLit (lit : String) (s : List Char) : Option Nat := do
  let (n, r) ← expectNum s
  let _ ← expectLit lit (skipWs r)
  pure n

/-- Anchored `Tests run:\s*(\d+),\s*Failures:\s*(\d+),\s*Errors:\s*(\d+),\s*Skipped:\s*(\d+)`
(the Maven summary line). -/
def atMaven (s : List Char) : Option (Nat × Nat × Nat × Nat) := do
  let r ← expectLit "Tests run:" s
  let (t, r) ← expectNum (skipWs r)
  let r ← expectLit "," r
  let r ← expectLit "Failures:" (skipWs r)
  let (f, r) ← expectNum (skipWs r)
  let r ← expectLit "," r
  let r ← expectLit "Errors:" (skipWs r)
  let (e, r) ← expectNum (skipWs r)
  let r ← expectLit "," r
  let r ← expectLit "Skipped:" (skipWs r)
  let (k, _) ← expectNum (skipWs r)
  pure (t, f, e, k)

/-- Anchored tail of the Rust summary
`(\d+) passed;\s*(\d+) failed;\s*(\d+) ignored`. -/
def atRustTail (s : List Char) : Option (Nat × Nat × Nat) := do
  let (p, r) ← expectNum s
  let r ← expectLit " passed;" r
  let (f, r) ← expectNum (skipWs r)
  let r ← expectLit " failed;" r
  let (i, r) ← expectNum (skipWs r)
  let _ ← expectLit " ignored" r
  pure (p, f, i)

/-- Anchored `TOTAL\s+\d+\s+\d+\s+(\d+)%` (pytest-cov summary row). -/
def atTotalCov (s : List Char) : Option Nat := do
  let r ← expectLit "TOTAL" s
  let r ← expectWs1 r
  let (_, r) ← expectNum r
  let r ← expectWs1 r
  let (_, r) ← expectNum r
  let r ← expectWs1 r
  let (n, r) ← expectNum r
  let _ ← expectLit "%" r
  pure n

/-- Anchored `All files\s*\|\s*([\d.]+)` (Istanbul coverage table row). -/
def atAllFiles (s : List Char) : Option ℚ := do
  let r ← expectLit "All files" s
  let r ← expectLit "|" (skipWs r)
  let (q, _) ← expectDec (skipWs r)
  pure q

/-- Anchored `lit\s*:\s*([\d.]+)%` (Jest text summaries `Statements : …%`,
`Lines : …%`). -/
def atLitColonDecPct (lit : String) (s : List Char) : Option ℚ := do
  let r ← expectLit lit s
  let r ← expectLit ":" (skipWs r)
  let (q, r2) ← expectDec (skipWs r)
  let _ ← expectLit "%" r2
  pure q

/-- Anchored `coverage:\s*(\d+(?:\.\d+)?)%`. -/
def atCovColon (s : List Char) : Option ℚ := do
  let r ← expectLit "coverage:" s
  let (q, r2) ← expectNumDec (skipWs r)
  let _ ← expectLit "%" r2
  pure q

/-- Anchored `(\d+(?:\.\d+)?)%\s*coverage` (tarpaulin style). -/
def atPctCoverage (s : List Char) : Option ℚ := do
  let (q, r) ← expectNumDec s
  let r ← expectLit "%" r
  let _ ← expectLit "coverage" (skipWs r)
  pure q

/-! ## Search (leftmost) wrappers, `String`-level -/

/-- Search `(\d+)lit`. -/
def reNumLit (lit : String) (s : String) : Option Nat :=
  scanFor (atNumLit lit) s.data

/-- Search `lit\s*(\d+)`. -/
def reLitWsNum (lit : String) (s : String) : Option Nat :=
  scanFor (atLitWsNum lit) s.data

/-- Search `Tests:\s*(\d+) passed`. -/
def reTestsNumPassed (s : String) : Option Nat :=
  scanFor (atLitWsNumLit "Tests:" " passed") s.data

/-- Search `Tests:.*?(\d+) failed` (lazy in-line gap after the anchor). -/
def reTestsNumFailed (s : String) : Option Nat :=
  scanFor (fun t => (expectLit "Tests:" t).bind (lineScan (atNumLit " failed"))) s.data

/-- Search the Maven summary quadruple. -/
def reMaven (s : String) : Option (Nat × Nat × Nat × Nat) :=
  scanFor atMaven s.data

/-- Search `test result:.*?(\d+) passed;\s*(\d+) failed;\s*(\d+) ignored`. -/
def reRust (s : String) : Option (Nat × Nat × Nat) :=
  scanFor (fun t => (expectLit "test result:" t).bind (lineScan atRustTail)) s.data

/-- Search `TOTAL\s+\d+\s+\d+\s+(\d+)%`. -/
def reTotalCov (s : String) : Option Nat := scanFor atTotalCov s.data

/-- Search `All files\s*\|\s*([\d.]+)`. -/
def reAllFiles (s : String) : Option ℚ := scanFor atAllFiles s.data

/-- Search `Statements\s*:\s*([\d.]+)%`. -/
def reStatementsPct (s : String) : Option ℚ :=
  scanFor (atLitColonDecPct "Statements") s.data

/-- Search `Lines\s*:\s*([\d.]+)%`. -/
def reLinesPct (s : String) : Option ℚ :=
  scanFor (atLitColonDecPct "Lines") s.data

/-- Search `coverage:\s*(\d+(?:\.\d+)?)%`. -/
def reCovColon (s : String) : Option ℚ := scanFor atCovColon s.data

/-- Search `(\d+(?:\.\d+)?)%\s*coverage`. -/
def rePctCoverage (s : String) : Option ℚ := scanFor atPctCoverage s.data

/-! ## Data model of `sandbox_tools.py` -/

/-- The `ExecutionStatus` enum. -/
inductive ExecutionStatus
  | success
  | failure
  | timeout
  | error
deriving DecidableEq, Repr

/-- The `TestResult` dataclass. -/
structure TestResult where
  status : ExecutionStatus
  exit_code : Int
  stdout : String
  stderr : String
  duration_seconds : ℚ
  tests_passed : Int := 0
  tests_failed : Int := 0
  tests_skipped : Int := 0
  coverage_percent : Option ℚ := none
deriving DecidableEq, Repr

/-- Contribution of an optional match to an additive counter (`+= value`
when matched, nothing otherwise). -/
def contrib (o : Option Nat) : Int :=
  match o with
  | some n => (n : Int)
  | none => 0

/-- Embedding of `DockerSandbox._parse_test_output`: additive multi-framework
extraction of test counts, plus a first-match chain for coverage. -/
def parseTestOutput (stdout stderr : String) : TestResult :=
  let combined := stdout ++ "\n" ++ stderr
  -- pytest: "X passed, Y failed, Z skipped"
  -- Jest: "Tests: X passed", "Tests:.*?Y failed"
  -- Mocha: "X passing", "Y failing", "Z pending"
  -- Maven: "Tests run: T, Failures: F, Errors: E, Skipped: S"
  -- Go: counts of "--- PASS:" / "--- FAIL:" / "--- SKIP:"
  -- Rust: "test result: ok. X passed; Y failed; Z ignored"
  -- .NET: "Passed: X", "Failed: Y", "Skipped: Z"
  let maven := reMaven combined
  let mavenPassed : Int :=
    match maven with
    | some (t, f, e, k) => (t : Int) - (f : Int) - (e : Int) - (k : Int)
    | none => 0
  let mavenFailed : Int :=
    match maven with
    | some (_, f, e, _) => (f : Int) + (e : Int)
    | none => 0
  let mavenSkipped : Int :=
    match maven with
    | some (_, _, _, k) => (k : Int)
    | none => 0
  let rust := reRust combined
  let rustPassed : Int := match rust with | some (p, _, _) => (p : Int) | none => 0
  let rustFailed : Int := match rust with | some (_, f, _) => (f : Int) | none => 0
  let rustSkipped : Int := match rust with | some (_, _, i) => (i : Int) | none => 0
  let passed : Int :=
    contrib (reNumLit " passed" combined) + contrib (reTestsNumPassed combined)
      + contrib (reNumLit " passing" combined) + mavenPassed
      + (countOccurS "--- PASS:" combined : Int) + rustPassed
      + contrib (reLitWsNum "Passed:" combined)
  let failed : Int :=
    contrib (reNumLit " failed" combined) + contrib (reTestsNumFailed combined)
      + contrib (reNumLit " failing" combined) + mavenFailed
      + (countOccurS "--- FAIL:" combined : Int) + rustFailed
      + contrib (reLitWsNum "Failed:" combined)
  let skipped : Int :=
    contrib (reNumLit " skipped" combined) + contrib (reNumLit " pending" combined)
      + mavenSkipped + (countOccurS "--- SKIP:" combined : Int) + rustSkipped
      + contrib (reLitWsNum "Skipped:" combined)
  let coverage : Option ℚ :=
    match reTotalCov combined with
    | some n => some (n : ℚ)
    | none =>
      match reAllFiles combined with
      | some q => some q
      | none =>
        match reStatementsPct combined with
        | some q => some q
        | none =>
          match reLinesPct combined with
          | some q => some q
          | none =>
            match reCovColon combined with
            | some q => some q
            | none => rePctCoverage combined
  { status := .success
    exit_code := 0
    stdout := stdout
    stderr := stderr
    duration_seconds := 0
    tests_passed := passed
    tests_failed := failed
    tests_skipped := skipped
    coverage_percent := coverage }

/-- No test-count pattern of `_parse_test_output` matches the combined
output. -/
def noTestCountSignal (c : String) : Prop :=
  reNumLit " passed" c = none ∧ reTestsNumPassed c = none
    ∧ reNumLit " passing" c = none ∧ reNumLit " failed" c = none
    ∧ reTestsNumFailed c = none ∧ reNumLit " failing" c = none
    ∧ reNumLit " skipped" c = none ∧ reNumLit " pending" c = none
    ∧ reMaven c = none
    ∧ countOccurS "--- PASS:" c = 0 ∧ countOccurS "--- FAIL:" c = 0
    ∧ countOccurS "--- SKIP:" c = 0 ∧ reRust c = none
    ∧ reLitWsNum "Passed:" c = none ∧ reLitWsNum "Failed:" c = none
    ∧ reLitWsNum "Skipped:" c = none

/-- No coverage pattern of `_parse_test_output` matches the combined output. -/
def noCoverageSignal (c : String) : Prop :=
  reTotalCov c = none ∧ reAllFiles c = none ∧ reStatementsPct c = none
    ∧ reLinesPct c = none ∧ reCovColon c = none ∧ rePctCoverage c = none

instance (c : String) : Decidable (noTestCountSignal c) := by
  unfold noTestCountSignal; infer_instance

instance (c : String) : Decidable (noCoverageSignal c) := by
  unfold noCoverageSignal; infer_instance

/-! ## The Docker sandbox executor (`DockerSandbox.execute`) -/

/-- Outcome of one `container.exec_run` round trip (container creation,
file injection and command execution), as seen by `DockerSandbox.execute`:
either an exit code with demuxed output streams (each possibly absent), or
a raised `docker.errors.ContainerError`, or any other raised exception. -/
inductive ExecOutcome
  | ok (exitCode : Int) (stdout stderr : Option String)
  | containerErr (msg : String)
  | exn (msg : String)
deriving DecidableEq, Repr

/-- Oracle for the Docker daemon.  `execRun` receives exactly the data the
source hands to `containers.run` / `exec_run`: the image, the memory limit,
the CPU limit, the command, the injected files and the environment
variables.  The stored `timeout` of the sandbox is not among them.
`elapsed` models the measured wall-clock duration. -/
structure DockerEnv where
  dockerAvailable : Bool
  execRun : String → String → ℚ → String → List (String × String) → List (String × String) → ExecOutcome
  elapsed : ℚ

/-- The `DockerSandbox` constructor state (`__init__`). -/
structure DockerSandbox where
  image : String
  timeout : Nat := 300
  memory_limit : String := "512m"
  cpu_limit : ℚ := 1
deriving DecidableEq, Repr

/-- Embedding of `DockerSandbox.execute`: fail fast when Docker is
unavailable; otherwise run the command, parse the combined output, then
overwrite exit code, duration and status (`SUCCESS` iff the exit code is
zero); any raised exception yields an `ERROR` result with exit code `-1`. -/
def DockerSandbox.execute (env : DockerEnv) (sb : DockerSandbox) (command : String)
    (code_files : List (String × String)) (env_vars : List (String × String)) : TestResult :=
  if !env.dockerAvailable then
    { status := .error
      exit_code := -1
      stdout := ""
      stderr := "Docker is not available. Please ensure Docker Desktop is running on your system."
      duration_seconds := 0 }
  else
    match env.execRun sb.image sb.memory_limit sb.cpu_limit command code_files env_vars with
    | .ok exitCode o e =>
      let stdout := o.getD ""
      let stderr := e.getD ""
      let r := parseTestOutput stdout stderr
      { r with
          exit_code := exitCode
          duration_seconds := env.elapsed
          status := if exitCode = 0 then .success else .failure }
    | .containerErr m =>
      { status := .error
        exit_code := -1
        stdout := ""
        stderr := "Container error: " ++ m
        duration_seconds := env.elapsed }
    | .exn m =>
      { status := .error
        exit_code := -1
        stdout := ""
        stderr := "Sandbox error: " ++ m
        duration_seconds := env.elapsed }

/-! ## Claims C1, C2, C3 -/

/-- C1.  For every result of `DockerSandbox.execute`, the status is
`success` if and only if the exit code is `0`; in particular every
non-zero exit code yields `failure` or `error`, never `success`. -/
theorem c1_status_iff_exit_zero (env : DockerEnv) (sb : DockerSandbox) (command : String)
    (code_files env_vars : List (String × String)) :
    ((DockerSandbox.execute env sb command code_files env_vars).status = ExecutionStatus.success
        ↔ (DockerSandbox.execute env sb command code_files env_vars).exit_code = 0)
      ∧ ((DockerSandbox.execute env sb command code_files env_vars).exit_code ≠ 0
        → (DockerSandbox.execute env sb command code_files env_vars).status = ExecutionStatus.failure
          ∨ (DockerSandbox.execute env sb command code_files env_vars).status = ExecutionStatus.error) := by
  unfold DockerSandbox.execute
  cases h : env.dockerAvailable with
  | false => simp
  | true =>
    simp only [h, Bool.not_true]
    cases env.execRun sb.image sb.memory_limit sb.cpu_limit command code_files env_vars with
    | ok ec o e =>
      by_cases hec : ec = 0 <;> simp [hec]
    | containerErr m => simp
    | exn m => simp

/-- C2 (refuting theorem).  `DockerSandbox.execute` never produces the
`timeout` status, and its result does not depend on the sandbox's stored
`timeout` field at all: the field is saved by `__init__` and never
consulted, and `exec_run` is invoked without any deadline. -/
theorem c2_timeout_never_used (env : DockerEnv) (sb : DockerSandbox) (command : String)
    (code_files env_vars : List (String × String)) :
    (DockerSandbox.execute env sb command code_files env_vars).status ≠ ExecutionStatus.timeout
      ∧ ∀ t : Nat,
        DockerSandbox.execute env { sb with timeout := t } command code_files env_vars
          = DockerSandbox.execute env sb command code_files env_vars := by
  constructor
  · unfold DockerSandbox.execute
    cases h : env.dockerAvailable with
    | false => simp
    | true =>
      simp only [h, Bool.not_true]
      cases env.execRun sb.image sb.memory_limit sb.cpu_limit command code_files env_vars with
      | ok ec o e => by_cases hec : ec = 0 <;> simp [hec]
      | containerErr m => simp
      | exn m => simp
  · intro t
    rfl

/-- C3 (amended).  When no test-count pattern matches, the parser leaves
every test counter at its zero value `0` (it has no distinct "unknown"
representation for counts), and when no coverage pattern matches it leaves
the coverage field at `None`; the parse itself is a total function and
raises nothing. -/
theorem c3_unmatched_patterns_default (stdout stderr : String)
    (hcnt : noTestCountSignal (stdout ++ "\n" ++ stderr))
    (hcov : noCoverageSignal (stdout ++ "\n" ++ stderr)) :
    (parseTestOutput stdout stderr).tests_passed = 0
      ∧ (parseTestOutput stdout stderr).tests_failed = 0
      ∧ (parseTestOutput stdout stderr).tests_skipped = 0
      ∧ (parseTestOutput stdout stderr).coverage_percent = none := by
  obtain ⟨h1, h2, h3, h4, h5, h6, h7, h8, h9, h10, h11, h12, h13, h14, h15, h16⟩ := hcnt
  obtain ⟨g1, g2, g3, g4, g5, g6⟩ := hcov
  simp only [parseTestOutput, h1, h2, h3, h4, h5, h6, h7, h8, h9, h10, h11, h12, h13, h14,
    h15, h16, g1, g2, g3, g4, g5, g6, contrib]
  norm_num

/-- C3 (counterexample to the claim as stated).  On an output in which no
test-count pattern matches, the parser reports the failure count as the
integer `0` — the same value as a measured zero — rather than any explicit
"unknown" marker, so a reported zero does not always mean a measured zero. -/
theorem c3_counterexample :
    noTestCountSignal ("no tests ran" ++ "\n" ++ "")
      ∧ (parseTestOutput "no tests ran" "").tests_failed = 0
      ∧ (parseTestOutput "no tests ran" "").tests_passed = 0 := by
  decide

/-- C3 witness: the amended theorem applied at a concrete unmatched output. -/
theorem c3_unmatched_patterns_default_witness :
    noTestCountSignal ("collecting ..." ++ "\n" ++ "")
      ∧ noCoverageSignal ("collecting ..." ++ "\n" ++ "")
      ∧ ((parseTestOutput "collecting ..." "").tests_passed = 0
        ∧ (parseTestOutput "collecting ..." "").tests_failed = 0
        ∧ (parseTestOutput "collecting ..." "").tests_skipped = 0
        ∧ (parseTestOutput "collecting ..." "").coverage_percent = none) :=
  ⟨by decide, by decide, c3_unmatched_patterns_default "collecting ..." "" (by decide) (by decide)⟩

/-! ## String-building helpers shared by the report templates -/

/-- Python slice `s[:n]` (by code point). -/
def pyTake (n : Nat) (s : String) : String := String.mk (s.data.take n)

/-- Integer power of ten. -/
def pow10 : Nat → Int
  | 0 => 1
  | n + 1 => 10 * pow10 n

/-- Left-pad a numeral with zeros to the given width. -/
def padLeftZeros (w : Nat) (s : String) : String :=
  String.mk (List.replicate (w - s.length) '0') ++ s

/-- Fixed-point decimal rendering of a rational with `prec` digits, the
model of Python's `format(x, '.1f')` / `'.2f'` (rounding at the half is
immaterial to every claim below).  The scaled value
`⌊q·10^prec + 1/2⌋ = ⌊(2·num·10^prec + den) / (2·den)⌋` is computed with
integer arithmetic only. -/
def fmtFixed (prec : Nat) (q : ℚ) : String :=
  let scaled : Int := (2 * q.num * pow10 prec + (q.den : Int)).fdiv (2 * (q.den : Int))
  let sign := if scaled < 0 then "-" else ""
  let a := scaled.natAbs
  if prec = 0 then sign ++ toString a
  else sign ++ toString (a / 10 ^ prec) ++ "." ++ padLeftZeros prec (toString (a % 10 ^ prec))

/-- The `.value.upper()` of an `ExecutionStatus`. -/
def upperValue : ExecutionStatus → String
  | .success => "SUCCESS"
  | .failure => "FAILURE"
  | .timeout => "TIMEOUT"
  | .error => "ERROR"

/-- Status icon used by `TestResult.to_prompt`. -/
def statusIcon (st : ExecutionStatus) : String :=
  if st = ExecutionStatus.success then "✅" else "❌"

/-- The optional coverage line of `to_prompt` (`if self.coverage_percent`
is Python truthiness: `None` and `0.0` both suppress the line). -/
def covLine (c : Option ℚ) : String :=
  match c with
  | some q => if q ≠ 0 then "- Coverage: " ++ fmtFixed 1 q ++ "%" else ""
  | none => ""

/-- The optional stderr block of `to_prompt`. -/
def errBlock (stderr : String) : String :=
  if stderr ≠ "" then "### Errors\n```\n" ++ pyTake 1500 stderr ++ "\n```" else ""

/-- Embedding of `TestResult.to_prompt`. -/
def TestResult.toPrompt (r : TestResult) : String :=
  ("\n## Test Execution Result " ++ statusIcon r.status ++ "\n\n**Status:** "
      ++ upperValue r.status ++ "\n**Exit Code:** " ++ toString r.exit_code
      ++ "\n**Duration:** " ++ fmtFixed 2 r.duration_seconds
      ++ "s\n\n### Test Summary\n- Passed: " ++ toString r.tests_passed
      ++ "\n- Failed: " ++ toString r.tests_failed
      ++ "\n- Skipped: " ++ toString r.tests_skipped ++ "\n"
      ++ covLine r.coverage_percent ++ "\n\n### Output\n```\n")
    ++ (pyTake 3000 r.stdout ++ ("\n```\n" ++ errBlock r.stderr ++ "\n"))

/-! ## A substring predicate for stating "the report mentions …" -/

/-- The needle occurs somewhere in the haystack. -/
def substr (needle hay : String) : Prop := needle.data <:+: hay.data

instance (n h : String) : Decidable (substr n h) := by
  unfold substr; infer_instance

theorem substr_self (s : String) : substr s s := ⟨[], [], by simp⟩

theorem substr_appendLeft (a : String) {n h : String} (H : substr n h) : substr n (a ++ h) := by
  obtain ⟨s, t, e⟩ := H
  exact ⟨a.data ++ s, t, by simp [← e]⟩

theorem substr_appendRight {n h : String} (H : substr n h) (b : String) : substr n (h ++ b) := by
  obtain ⟨s, t, e⟩ := H
  exact ⟨s, t ++ b.data, by simp [← e]⟩

/-! ## Mutation-output matchers (`run_mutation_tests`, `run_mutation_tests_on_branch`) -/

/-- ASCII lowering of a character; the model of `re.IGNORECASE` is to lower
both the haystack and the (already lowercase) pattern literals. -/
def asciiLower (c : Char) : Char :=
  if 'A' ≤ c ∧ c ≤ 'Z' then Char.ofNat (c.toNat + 32) else c

/-- ASCII-lowered copy of a string. -/
def strLower (s : String) : String := String.mk (s.data.map asciiLower)

/-- Search `(\d+)\s*lit`. -/
def reNumWsLit (lit : String) (s : String) : Option Nat :=
  scanFor (atNumWsLit lit) s.data

/-- The `total` patterns of the mutmut block:
`(\d+)\s*mutants`, `Total:\s*(\d+)`, `(\d+)\s*mutations` (all IGNORECASE),
tried in order. -/
def mutmutTotal (s : String) : Option Nat :=
  let l := strLower s
  match reNumWsLit "mutants" l with
  | some n => some n
  | none =>
    match reLitWsNum "total:" l with
    | some n => some n
    | none => reNumWsLit "mutations" l

/-- The `killed` patterns: `Killed:\s*(\d+)`, `(\d+)\s*killed`,
`(\d+)\s*detected` (IGNORECASE). -/
def mutmutKilled (s : String) : Option Nat :=
  let l := strLower s
  match reLitWsNum "killed:" l with
  | some n => some n
  | none =>
    match reNumWsLit "killed" l with
    | some n => some n
    | none => reNumWsLit "detected" l

/-- The `survived` patterns: `Survived:\s*(\d+)`, `(\d+)\s*survived`,
`(\d+)\s*undetected` (IGNORECASE). -/
def mutmutSurvived (s : String) : Option Nat :=
  let l := strLower s
  match reLitWsNum "survived:" l with
  | some n => some n
  | none =>
    match reNumWsLit "survived" l with
    | some n => some n
    | none => reNumWsLit "undetected" l

/-- Anchored `lit1\s*lit2\s*([\d.]+)%?` (the optional `%` constrains
nothing, so it is dropped). -/
def atLitWsLitWsDec (lit1 lit2 : String) (s : List Char) : Option ℚ := do
  let r ← expectLit lit1 s
  let r ← expectLit lit2 (skipWs r)
  let (q, _) ← expectDec (skipWs r)
  pure q

/-- Anchored `lit\s*([\d.]+)%?`. -/
def atLitWsDec (lit : String) (s : List Char) : Option ℚ := do
  let r ← expectLit lit s
  let (q, _) ← expectDec (skipWs r)
  pure q

/-- The `score` patterns of the mutmut block:
`Mutation\s*[sS]core:\s*([\d.]+)%?`, `Score:\s*([\d.]+)%?` (IGNORECASE). -/
def mutmutScore (s : String) : Option ℚ :=
  let l := strLower s
  match scanFor (atLitWsLitWsDec "mutation" "score:") l.data with
  | some q => some q
  | none => scanFor (atLitWsDec "score:") l.data

/-- Search `with\s+(\d+)\s+mutant` (Stryker's instrumentation line). -/
def reWithMutant (s : String) : Option Nat :=
  scanFor
    (fun t => do
      let r ← expectLit "with" t
      let r ← expectWs1 r
      let (n, r) ← expectNum r
      let r ← expectWs1 r
      let _ ← expectLit "mutant" r
      pure n)
    s.data

/-- Anchored
`(\d+)/(\d+)\s+tested\s*\((\d+)\s+survived,?\s*(\d+)?\s*timed\s*out\)`
(Stryker's progress line).  Returns (tested, total, survived, timed-out?). -/
def atTested (t : List Char) : Option (Nat × Nat × Nat × Option Nat) := do
  let (a, r) ← expectNum t
  let r ← expectLit "/" r
  let (b, r) ← expectNum r
  let r ← expectWs1 r
  let r ← expectLit "tested" r
  let r ← expectLit "(" (skipWs r)
  let (sv, r) ← expectNum r
  let r ← expectWs1 r
  let r ← expectLit "survived" r
  let r := match expectLit "," r with | some r2 => r2 | none => r
  let r := skipWs r
  let (toOpt, r) :=
    match expectNum r with
    | some (n, r2) => ((some n : Option Nat), r2)
    | none => (none, r)
  let r ← expectLit "timed" (skipWs r)
  let _ ← expectLit "out)" (skipWs r)
  pure (a, b, sv, toOpt)

/-- Search the Stryker progress line. -/
def reTested (s : String) : Option (Nat × Nat × Nat × Option Nat) :=
  scanFor atTested s.data

/-- Search `Mutation\s+score[:\s]+(\d+(?:\.\d+)?)\s*%` (IGNORECASE). -/
def reStrykerScore (s : String) : Option ℚ :=
  scanFor
    (fun t => do
      let r ← expectLit "mutation" t
      let r ← expectWs1 r
      let r ← expectLit "score" r
      let r ←
        match r with
        | [] => none
        | c :: cs =>
          if c = ':' || pyWs c then some (cs.dropWhile (fun d => d = ':' || pyWs d))
          else none
      let (q, r) ← expectNumDec r
      let _ ← expectLit "%" (skipWs r)
      pure q)
    (strLower s).data

/-! ## Mutation score parsing and derivation -/

/-- The counters extracted by `run_mutation_tests_on_branch` before the
report is rendered. -/
structure MutationCounts where
  total : Int
  killed : Int
  survived : Int
  timedOut : Int
  noCoverage : Int
  score : ℚ
deriving DecidableEq, Repr

/-- Embedding of the parsing block of `run_mutation_tests_on_branch`
(lines 1642–1687) before the score derivation: Stryker patterns first, the
mutmut pattern table only when no total was found (each assignment in the
mutmut block overwrites its counter only when its pattern matched, which
the per-field `if total1 = 0` conditionals reproduce). -/
def parseBranchCounts (combined : String) : MutationCounts :=
  let total0 : Int :=
    match reWithMutant combined with | some n => (n : Int) | none => 0
  let tested := reTested combined
  let total1 : Int :=
    match tested with
    | some (_, t2, _, _) => if total0 ≠ 0 then total0 else (t2 : Int)
    | none => total0
  let timedOut : Int :=
    match tested with
    | some (_, _, _, toOpt) => (match toOpt with | some n => (n : Int) | none => 0)
    | none => 0
  let survived1 : Int :=
    match tested with
    | some (_, _, sv, _) => (sv : Int)
    | none => 0
  let killed1 : Int :=
    match tested with
    | some (tst, _, sv, toOpt) =>
      (tst : Int) - (sv : Int) - (match toOpt with | some n => (n : Int) | none => 0)
    | none => 0
  let score0 : ℚ :=
    match reStrykerScore combined with | some q => q | none => 0
  let noCoverage : Int := (countOccurS "[NoCoverage]" combined : Int)
  let total2 :=
    if total1 = 0 then
      match mutmutTotal combined with | some n => (n : Int) | none => total1
    else total1
  let killed2 :=
    if total1 = 0 then
      match mutmutKilled combined with | some n => (n : Int) | none => killed1
    else killed1
  let survived2 :=
    if total1 = 0 then
      match mutmutSurvived combined with | some n => (n : Int) | none => survived1
    else survived1
  let score2 :=
    if total1 = 0 then
      match mutmutScore combined with | some q => q | none => score0
    else score0
  { total := total2, killed := killed2, survived := survived2,
    timedOut := timedOut, noCoverage := noCoverage, score := score2 }

/-- Embedding of the score derivation of `run_mutation_tests_on_branch`
(lines 1689–1694): when no score pattern matched and mutants were counted,
`score = killed / effective_total * 100` with `effective_total` equal to
`total - no_coverage` when any uncovered mutants were seen, else `total`. -/
def deriveBranchScore (score : ℚ) (total killed noCoverage : Int) : ℚ :=
  if score = 0 ∧ total > 0 then
    let effective_total : Int := if noCoverage > 0 then total - noCoverage else total
    if effective_total > 0 then (killed : ℚ) / (effective_total : ℚ) * 100 else score
  else score

/-- Full mutation parsing of `run_mutation_tests_on_branch`: extraction
followed by the score derivation. -/
def parseBranchMutation (combined : String) : MutationCounts :=
  let c := parseBranchCounts combined
  { c with score := deriveBranchScore c.score c.total c.killed c.noCoverage }

/-- The counters extracted by `run_mutation_tests` (mutmut patterns only). -/
structure PlainMutationCounts where
  total : Int
  killed : Int
  survived : Int
  score : ℚ
deriving DecidableEq, Repr

/-- Embedding of the parsing and derivation block of `run_mutation_tests`
(lines 704–736): the mutmut pattern table, then
`score = killed / total * 100` when no score pattern matched. -/
def plainMutationStats (output : String) : PlainMutationCounts :=
  let total : Int := match mutmutTotal output with | some n => (n : Int) | none => 0
  let killed : Int := match mutmutKilled output with | some n => (n : Int) | none => 0
  let survived : Int := match mutmutSurvived output with | some n => (n : Int) | none => 0
  let score : ℚ := match mutmutScore output with | some q => q | none => 0
  let score2 := if score = 0 ∧ total > 0 then (killed : ℚ) / (total : ℚ) * 100 else score
  { total := total, killed := killed, survived := survived, score := score2 }

/-! ## The mutation-testing tool functions -/

/-- Clone URL built by the `*_on_branch` tools (token-authenticated when a
`GITHUB_TOKEN` is present). -/
def cloneUrl (token repo : String) : String :=
  if token ≠ "" then "https://" ++ token ++ "@github.com/" ++ repo ++ ".git"
  else "https://github.com/" ++ repo ++ ".git"

/-- The environment variables passed to the sandbox by the `*_on_branch`
tools (`{"GITHUB_TOKEN": token}` when a token is present, else `{}`). -/
def tokenEnvVars (token : String) : List (String × String) :=
  if token ≠ "" then [("GITHUB_TOKEN", token)] else []

/-- Token redaction applied to sandbox output before it is surfaced. -/
def redact (token s : String) : String :=
  if token ≠ "" then s.replace token "***" else s

/-- The git-install command line used by `run_mutation_tests_on_branch`. -/
def gitInstallCmd : String :=
  "apt-get update -qq && apt-get install -y -qq git > /dev/null 2>&1 || apk add --no-cache git > /dev/null 2>&1 || true"

/-- The command list built by `run_mutation_tests_on_branch` before the
test or mutation command is appended. -/
def branchCommands (token repo branch : String) (setup : List String) : List String :=
  [gitInstallCmd,
    "git clone --depth 1 --branch " ++ branch ++ " " ++ cloneUrl token repo ++ " /app/repo",
    "cd /app/repo"] ++ setup

/-- The baseline command of `run_mutation_tests_on_branch`. -/
def baselineCommandOnBranch (token repo branch test_command : String) (setup : List String) : String :=
  String.intercalate " && " (branchCommands token repo branch setup)
    ++ " && cd /app/repo && " ++ test_command

/-- The mutation command of `run_mutation_tests_on_branch`. -/
def fullCommandOnBranch (token repo branch mutation_command : String) (setup : List String) : String :=
  String.intercalate " && " (branchCommands token repo branch setup)
    ++ " && cd /app/repo && " ++ mutation_command

/-- The baseline (or mutation) command chain of `run_mutation_tests`:
setup commands joined with `&&` and prepended when present. -/
def plainChainCmd (setup : List String) (cmd : String) : String :=
  if setup.isEmpty then cmd
  else String.intercalate " && " setup ++ " && " ++ cmd

/-- The sandbox constructed by `run_mutation_tests`. -/
def plainSandbox (docker_image : String) : DockerSandbox :=
  { image := docker_image, timeout := 900 }

/-- The sandbox constructed by `run_mutation_tests_on_branch`. -/
def branchSandbox (docker_image : String) (tmo : Nat) : DockerSandbox :=
  { image := docker_image, timeout := tmo, memory_limit := "2g" }

/-- The baseline execution of `run_mutation_tests`. -/
def plainBaselineResult (env : DockerEnv) (docker_image : String) (setup : List String)
    (test_command : String) (code_files : List (String × String)) : TestResult :=
  DockerSandbox.execute env (plainSandbox docker_image)
    (plainChainCmd setup test_command) code_files []

/-- The baseline execution of `run_mutation_tests_on_branch`. -/
def branchBaselineResult (env : DockerEnv) (token repo branch docker_image : String)
    (setup : List String) (test_command : String) (tmo : Nat) : TestResult :=
  DockerSandbox.execute env (branchSandbox docker_image tmo)
    (baselineCommandOnBranch token repo branch test_command setup) [] (tokenEnvVars token)

/-- The skip report returned by `run_mutation_tests` when the baseline
fails. -/
def plainSkipReport (b : TestResult) : String :=
  ("\n## " ++ "Mutation Testing Skipped"
      ++ " ❌\n\n**Baseline tests failed.** Cannot run mutation tests until all tests pass.\n\n")
    ++ (TestResult.toPrompt b ++ "\n")

/-- The report body of `run_mutation_tests` when mutation tests do run. -/
def plainMutationReport (status : String) (stats : PlainMutationCounts) (output : String) : String :=
  "\n## Mutation Testing Result\n\n**MUTATION_STATUS: " ++ status
    ++ "**\n**Mutation Score:** " ++ fmtFixed 1 stats.score
    ++ "%\n\n### Mutant Summary\n- Total Mutants: " ++ toString stats.total
    ++ "\n- Killed (detected by tests): " ++ toString stats.killed
    ++ " ✅\n- Survived (missed by tests): " ++ toString stats.survived
    ++ " ⚠️\n\n### Raw Output\n```\n" ++ pyTake 3000 output
    ++ "\n```\n\n---\n**INTERPRETATION:**\n- High mutation score (>80%) = Tests are thorough\n- Low mutation score = Tests may miss bugs\n- Survived mutants indicate code paths that aren\x27t properly tested\n"

/-- Embedding of `run_mutation_tests` (lines 637–761): bail out when Docker
is unavailable; run the baseline; on baseline failure return the skip
report built from the baseline result alone; otherwise run the mutation
command, parse, derive and render. -/
def run_mutation_tests (env : DockerEnv) (code_files : List (String × String))
    (mutation_command docker_image : String) (setup : List String)
    (test_command : String) : String :=
  if !env.dockerAvailable then
    "❌ **Docker Not Available** - Please start Docker Desktop."
  else
    let test_result := plainBaselineResult env docker_image setup test_command code_files
    if test_result.status ≠ ExecutionStatus.success then
      plainSkipReport test_result
    else
      let mutation_result := DockerSandbox.execute env (plainSandbox docker_image)
        (plainChainCmd setup mutation_command) code_files []
      let output := mutation_result.stdout ++ mutation_result.stderr
      let stats := plainMutationStats output
      let status := if stats.survived = 0 then "✅ PASSED" else "⚠️ NEEDS IMPROVEMENT"
      plainMutationReport status stats output

/-- Structured outcome of `run_mutation_tests_on_branch` before rendering. -/
inductive BranchMutationOutcome
  | dockerUnavailable
  | skippedBaseline (baseline : TestResult)
  | report (counts : MutationCounts) (combined : String) (mutationPassed : Bool)
deriving DecidableEq, Repr

/-- Control flow of `run_mutation_tests_on_branch` (lines 1516–1697):
bail out when Docker is unavailable; clone-and-test baseline first; skip
entirely on a non-zero baseline exit code; else run the mutation command,
redact the token from its output, parse, derive and gate. -/
def run_mutation_tests_on_branch_core (env : DockerEnv)
    (token repo branch mutation_command docker_image : String) (setup : List String)
    (test_command : String) (min_mutation_score : ℚ) (tmo : Nat) : BranchMutationOutcome :=
  if !env.dockerAvailable then .dockerUnavailable
  else
    let baseline_result := branchBaselineResult env token repo branch docker_image setup test_command tmo
    if baseline_result.exit_code ≠ 0 then .skippedBaseline baseline_result
    else
      let result := DockerSandbox.execute env (branchSandbox docker_image tmo)
        (fullCommandOnBranch token repo branch mutation_command setup) [] (tokenEnvVars token)
      let combined := redact token result.stdout ++ "\n" ++ redact token result.stderr
      let counts := parseBranchMutation combined
      .report counts combined (if counts.score ≥ min_mutation_score then true else false)

/-- The skip report of `run_mutation_tests_on_branch` (token-redacted
baseline output). -/
def branchSkipReport (token : String) (b : TestResult) : String :=
  ("\n## " ++ "Mutation Testing Skipped" ++ " ❌\n\n")
    ++ ("**MUTATION_STATUS: SKIPPED**"
      ++ "\n\n**Reason:** Baseline tests failed. Cannot run mutation tests until all tests pass.\n\n### Baseline Test Output\n```\n")
    ++ (pyTake 3000 (redact token b.stdout)
      ++ ("\n```\n" ++ errBlock (redact token b.stderr)
        ++ "\n\n**REQUIRED_ACTION:** Fix the failing tests first, then retry mutation testing.\n"))

/-- The report body of `run_mutation_tests_on_branch` when mutation tests
ran. -/
def branchMutationReport (repo branch : String) (min_mutation_score : ℚ)
    (c : MutationCounts) (combined : String) (passed : Bool) : String :=
  let status := if passed then "PASSED" else "NEEDS_IMPROVEMENT"
  let icon := if passed then "✅" else "⚠️"
  let no_coverage_str :=
    if c.noCoverage > 0 then "\n- **Not Covered by Tests:** " ++ toString c.noCoverage ++ " ⚠️" else ""
  let timed_out_str :=
    if c.timedOut > 0 then "\n- **Timed Out:** " ++ toString c.timedOut else ""
  "\n## Mutation Testing Report for Branch: " ++ branch ++ " " ++ icon
    ++ "\n\n**MUTATION_STATUS: " ++ status ++ "**\n\n**Repository:** " ++ repo
    ++ "\n**Branch:** " ++ branch
    ++ "\n**Mutation Score:** " ++ fmtFixed 1 c.score ++ "%"
    ++ " " ++ (if passed then "✅" else "❌")
    ++ "\n**Required Score:** " ++ fmtFixed 1 min_mutation_score ++ "%"
    ++ "\n\n### Mutant Summary\n- **Total Mutants:** " ++ toString c.total
    ++ "\n- **Killed (detected by tests):** " ++ toString c.killed ++ " ✅"
    ++ "\n- **Survived (missed by tests):** " ++ toString c.survived ++ " "
    ++ (if c.survived > 0 then "⚠️" else "✅") ++ no_coverage_str ++ timed_out_str
    ++ "\n\n### Raw Output\n```\n" ++ pyTake 4000 combined
    ++ "\n```\n\n---\n**INTERPRETATION:**\n- **High mutation score (>"
    ++ fmtFixed 0 min_mutation_score
    ++ "%):** Tests are thorough ✅\n- **Low mutation score:** Tests may miss bugs ⚠️\n- **Survived mutants:** Indicate code paths not properly tested\n\n**MUTATION_GATE:** "
    ++ (if passed then "PASSED - Score meets " ++ fmtFixed 0 min_mutation_score ++ "% threshold"
        else "NEEDS IMPROVEMENT - Score below " ++ fmtFixed 0 min_mutation_score ++ "% threshold")
    ++ "\n"

/-- String-level `run_mutation_tests_on_branch`. -/
def run_mutation_tests_on_branch (env : DockerEnv)
    (token repo branch mutation_command docker_image : String) (setup : List String)
    (test_command : String) (min_mutation_score : ℚ) (tmo : Nat) : String :=
  match run_mutation_tests_on_branch_core env token repo branch mutation_command docker_image
      setup test_command min_mutation_score tmo with
  | .dockerUnavailable => "❌ **Docker Not Available** - Please start Docker Desktop."
  | .skippedBaseline b => branchSkipReport token b
  | .report c combined passed => branchMutationReport repo branch min_mutation_score c combined passed

/-! ## Claims C4 and C8 -/

theorem substr_plainSkip_marker (b : TestResult) :
    substr "Mutation Testing Skipped" (plainSkipReport b) := by
  unfold plainSkipReport
  exact substr_appendRight (substr_appendRight (substr_appendLeft _ (substr_self _)) _) _

theorem substr_plainSkip_stdout (b : TestResult) :
    substr (pyTake 3000 b.stdout) (plainSkipReport b) := by
  unfold plainSkipReport TestResult.toPrompt
  exact substr_appendLeft _
    (substr_appendRight (substr_appendLeft _ (substr_appendRight (substr_self _) _)) _)

theorem substr_branchSkip_marker (token : String) (b : TestResult) :
    substr "**MUTATION_STATUS: SKIPPED**" (branchSkipReport token b) := by
  unfold branchSkipReport
  exact substr_appendRight (substr_appendLeft _ (substr_appendRight (substr_self _) _)) _

theorem substr_branchSkip_stdout (token : String) (b : TestResult) :
    substr (pyTake 3000 (redact token b.stdout)) (branchSkipReport token b) := by
  unfold branchSkipReport
  exact substr_appendLeft _ (substr_appendRight (substr_self _) _)

/-- Two Docker oracles that agree on availability, on the measured
duration, and on the one call `execute` makes, produce the same result. -/
theorem execute_congr (env env2 : DockerEnv) (sb : DockerSandbox) (cmd : String)
    (files envv : List (String × String))
    (hav : env2.dockerAvailable = env.dockerAvailable)
    (hel : env2.elapsed = env.elapsed)
    (hrun : env2.execRun sb.image sb.memory_limit sb.cpu_limit cmd files envv
      = env.execRun sb.image sb.memory_limit sb.cpu_limit cmd files envv) :
    DockerSandbox.execute env2 sb cmd files envv = DockerSandbox.execute env sb cmd files envv := by
  unfold DockerSandbox.execute
  rw [hav, hel, hrun]

/-- C4.  When the baseline test command fails, both mutation-testing tools
skip mutation testing entirely: `run_mutation_tests` returns exactly the
skip report built from the baseline result (so the result is independent
of the mutation command and of everything the oracle would answer for it),
the report names "Mutation Testing Skipped" and carries the baseline
stdout; likewise `run_mutation_tests_on_branch` stops at
`skippedBaseline`, its report carries the `MUTATION_STATUS: SKIPPED`
marker and the redacted baseline stdout, and no score is computed. -/
theorem c4_baseline_failure_skips_mutation
    (env env2 : DockerEnv) (code_files : List (String × String))
    (mutation_command mutation_command2 docker_image : String)
    (setup : List String) (test_command token repo branch : String)
    (min_score : ℚ) (tmo : Nat)
    (havail : env.dockerAvailable = true)
    (havail2 : env2.dockerAvailable = true)
    (helapsed : env2.elapsed = env.elapsed)
    (hagreeP : env2.execRun docker_image "512m" 1 (plainChainCmd setup test_command) code_files []
      = env.execRun docker_image "512m" 1 (plainChainCmd setup test_command) code_files [])
    (hfailP : (plainBaselineResult env docker_image setup test_command code_files).status
      ≠ ExecutionStatus.success)
    (hagreeB : env2.execRun docker_image "2g" 1
        (baselineCommandOnBranch token repo branch test_command setup) [] (tokenEnvVars token)
      = env.execRun docker_image "2g" 1
        (baselineCommandOnBranch token repo branch test_command setup) [] (tokenEnvVars token))
    (hfailB : (branchBaselineResult env token repo branch docker_image setup test_command tmo).exit_code
      ≠ 0) :
    (run_mutation_tests env code_files mutation_command docker_image setup test_command
      = plainSkipReport (plainBaselineResult env docker_image setup test_command code_files))
    ∧ (run_mutation_tests env2 code_files mutation_command2 docker_image setup test_command
      = run_mutation_tests env code_files mutation_command docker_image setup test_command)
    ∧ substr "Mutation Testing Skipped"
        (run_mutation_tests env code_files mutation_command docker_image setup test_command)
    ∧ substr (pyTake 3000 (plainBaselineResult env docker_image setup test_command code_files).stdout)
        (run_mutation_tests env code_files mutation_command docker_image setup test_command)
    ∧ (run_mutation_tests_on_branch_core env token repo branch mutation_command docker_image
        setup test_command min_score tmo
      = .skippedBaseline (branchBaselineResult env token repo branch docker_image setup test_command tmo))
    ∧ (run_mutation_tests_on_branch env2 token repo branch mutation_command2 docker_image
        setup test_command min_score tmo
      = run_mutation_tests_on_branch env token repo branch mutation_command docker_image
        setup test_command min_score tmo)
    ∧ substr "**MUTATION_STATUS: SKIPPED**"
        (run_mutation_tests_on_branch env token repo branch mutation_command docker_image
          setup test_command min_score tmo)
    ∧ substr (pyTake 3000
        (redact token (branchBaselineResult env token repo branch docker_image setup test_command tmo).stdout))
        (run_mutation_tests_on_branch env token repo branch mutation_command docker_image
          setup test_command min_score tmo) := by
  have hav : env2.dockerAvailable = env.dockerAvailable := havail2.trans havail.symm
  have hexecP : plainBaselineResult env2 docker_image setup test_command code_files
      = plainBaselineResult env docker_image setup test_command code_files :=
    execute_congr env env2 (plainSandbox docker_image) (plainChainCmd setup test_command)
      code_files [] hav helapsed hagreeP
  have hexecB : branchBaselineResult env2 token repo branch docker_image setup test_command tmo
      = branchBaselineResult env token repo branch docker_image setup test_command tmo :=
    execute_congr env env2 (branchSandbox docker_image tmo)
      (baselineCommandOnBranch token repo branch test_command setup) [] (tokenEnvVars token)
      hav helapsed hagreeB
  have hfailP2 : (plainBaselineResult env2 docker_image setup test_command code_files).status
      ≠ ExecutionStatus.success := by rw [hexecP]; exact hfailP
  have hfailB2 : (branchBaselineResult env2 token repo branch docker_image setup test_command tmo).exit_code
      ≠ 0 := by rw [hexecB]; exact hfailB
  have e1 : run_mutation_tests env code_files mutation_command docker_image setup test_command
      = plainSkipReport (plainBaselineResult env docker_image setup test_command code_files) := by
    simp only [run_mutation_tests, havail, Bool.not_true, Bool.false_eq_true, if_false,
      if_pos hfailP]
  have e1b : run_mutation_tests env2 code_files mutation_command2 docker_image setup test_command
      = plainSkipReport (plainBaselineResult env2 docker_image setup test_command code_files) := by
    simp only [run_mutation_tests, havail2, Bool.not_true, Bool.false_eq_true, if_false,
      if_pos hfailP2]
  have b1 : run_mutation_tests_on_branch_core env token repo branch mutation_command docker_image
      setup test_command min_score tmo
      = .skippedBaseline (branchBaselineResult env token repo branch docker_image setup test_command tmo) := by
    simp only [run_mutation_tests_on_branch_core, havail, Bool.not_true, Bool.false_eq_true,
      if_false, if_pos hfailB]
  have b1b : run_mutation_tests_on_branch_core env2 token repo branch mutation_command2 docker_image
      setup test_command min_score tmo
      = .skippedBaseline (branchBaselineResult env2 token repo branch docker_image setup test_command tmo) := by
    simp only [run_mutation_tests_on_branch_core, havail2, Bool.not_true, Bool.false_eq_true,
      if_false, if_pos hfailB2]
  refine ⟨e1, ?_, ?_, ?_, b1, ?_, ?_, ?_⟩
  · rw [e1b, hexecP, e1]
  · rw [e1]; exact substr_plainSkip_marker _
  · rw [e1]; exact substr_plainSkip_stdout _
  · unfold run_mutation_tests_on_branch
    rw [b1, b1b, hexecB]
  · unfold run_mutation_tests_on_branch
    rw [b1]
    exact substr_branchSkip_marker _ _
  · unfold run_mutation_tests_on_branch
    rw [b1]
    exact substr_branchSkip_stdout _ _

/-- A Docker oracle whose every command fails with exit code 1 and stdout
"boom". -/
def envExitOne : DockerEnv :=
  { dockerAvailable := true
    execRun := fun _ _ _ _ _ _ => .ok 1 (some "boom") none
    elapsed := 0 }

/-- C4 witness: the theorem applied to a concrete oracle whose baseline run
exits 1. -/
theorem c4_baseline_failure_skips_mutation_witness :
    ((plainBaselineResult envExitOne "python:3.12-slim" [] "pytest" []).status
        ≠ ExecutionStatus.success)
    ∧ ((branchBaselineResult envExitOne "" "o/r" "b" "python:3.12-slim" [] "pytest" 900).exit_code ≠ 0)
    ∧ substr "Mutation Testing Skipped"
        (run_mutation_tests envExitOne [] "mutmut run" "python:3.12-slim" [] "pytest")
    ∧ substr "**MUTATION_STATUS: SKIPPED**"
        (run_mutation_tests_on_branch envExitOne "" "o/r" "b" "mutmut run" "python:3.12-slim"
          [] "pytest" 60 900) :=
  ⟨by decide, by decide,
    (c4_baseline_failure_skips_mutation envExitOne envExitOne [] "mutmut run" "mutmut run"
      "python:3.12-slim" [] "pytest" "" "o/r" "b" 60 900 rfl rfl rfl rfl (by decide) rfl
      (by decide)).2.2.1,
    (c4_baseline_failure_skips_mutation envExitOne envExitOne [] "mutmut run" "mutmut run"
      "python:3.12-slim" [] "pytest" "" "o/r" "b" 60 900 rfl rfl rfl rfl (by decide) rfl
      (by decide)).2.2.2.2.2.2.1⟩

/-- When neither score pattern matches, the extracted pre-derivation score
is zero. -/
theorem parseBranchCounts_score_eq_zero (combined : String)
    (hs1 : reStrykerScore combined = none) (hs2 : mutmutScore combined = none) :
    (parseBranchCounts combined).score = 0 := by
  simp [parseBranchCounts, hs1, hs2]

/-- C8 (amended).  When no score pattern matches, the reported score of
both mutation tools is derived as `killed / (total - no_coverage) * 100`
whenever the effective total is positive (`no_coverage` is always zero for
`run_mutation_tests`, whose denominator is plain `total`), and it remains
the numeric `0` — not any "unknown" marker — when no total was parsed. -/
theorem c8_score_derivation (combined : String)
    (hs1 : reStrykerScore combined = none) (hs2 : mutmutScore combined = none) :
    (0 < (parseBranchMutation combined).total - (parseBranchMutation combined).noCoverage
      → (parseBranchMutation combined).score
        = ((parseBranchMutation combined).killed : ℚ)
          / (((parseBranchMutation combined).total - (parseBranchMutation combined).noCoverage : Int) : ℚ)
          * 100)
    ∧ ((parseBranchMutation combined).total = 0 → (parseBranchMutation combined).score = 0)
    ∧ (0 < (plainMutationStats combined).total
      → (plainMutationStats combined).score
        = ((plainMutationStats combined).killed : ℚ)
          / (((plainMutationStats combined).total : Int) : ℚ) * 100)
    ∧ ((plainMutationStats combined).total = 0 → (plainMutationStats combined).score = 0) := by
  have hz := parseBranchCounts_score_eq_zero combined hs1 hs2
  have hnc0 : 0 ≤ (parseBranchCounts combined).noCoverage := by
    simp [parseBranchCounts]
  refine ⟨?_, ?_, ?_, ?_⟩
  · intro h
    have htotpos : 0 < (parseBranchCounts combined).total := by
      have h2 : 0 < (parseBranchCounts combined).total - (parseBranchCounts combined).noCoverage := h
      omega
    show deriveBranchScore (parseBranchCounts combined).score (parseBranchCounts combined).total
        (parseBranchCounts combined).killed (parseBranchCounts combined).noCoverage = _
    rw [hz]
    unfold deriveBranchScore
    rw [if_pos ⟨rfl, htotpos⟩]
    have heff : (if 0 < (parseBranchCounts combined).noCoverage then
          (parseBranchCounts combined).total - (parseBranchCounts combined).noCoverage
        else (parseBranchCounts combined).total)
        = (parseBranchCounts combined).total - (parseBranchCounts combined).noCoverage := by
      split
      · rfl
      · omega
    simp only [heff]
    have hgt : (parseBranchCounts combined).total - (parseBranchCounts combined).noCoverage > 0 := h
    rw [if_pos hgt]
    rfl
  · intro h
    have h0 : (parseBranchCounts combined).total = 0 := h
    show deriveBranchScore (parseBranchCounts combined).score (parseBranchCounts combined).total
        (parseBranchCounts combined).killed (parseBranchCounts combined).noCoverage = 0
    unfold deriveBranchScore
    rw [hz, h0]
    simp
  · intro h
    have h2 : (0 : Int) < (match mutmutTotal combined with | some n => (n : Int) | none => 0) := h
    show (plainMutationStats combined).score = _
    simp only [plainMutationStats, hs2]
    split_ifs with hcond
    · rfl
    · exact absurd ⟨by norm_num, h2⟩ hcond
  · intro h
    have h2 : (match mutmutTotal combined with | some n => (n : Int) | none => 0) = 0 := h
    simp only [plainMutationStats, hs2, h2]
    split_ifs with hcond
    · exact absurd hcond.2 (by norm_num)
    · rfl

/-- A Docker oracle whose every command succeeds with empty output. -/
def envAllOk : DockerEnv :=
  { dockerAvailable := true
    execRun := fun _ _ _ _ _ _ => .ok 0 none none
    elapsed := 0 }

set_option maxRecDepth 100000 in
/-- C8 (counterexample to the claim as stated).  A full
`run_mutation_tests_on_branch` run whose mutation output contains no
parseable counts and no parseable score still reports the numeric score
`0` — rendered as `Mutation Score: 0.0%` — rather than any explicit
"unknown". -/
theorem c8_counterexample :
    reStrykerScore "\n" = none ∧ mutmutScore "\n" = none
      ∧ run_mutation_tests_on_branch_core envAllOk "" "o/r" "b" "mutmut run" "python:3.12-slim"
          [] "pytest" 60 900
        = .report (parseBranchMutation "\n") "\n" false
      ∧ (parseBranchMutation "\n").total = 0 ∧ (parseBranchMutation "\n").score = 0
      ∧ substr "**Mutation Score:** 0.0%"
          (run_mutation_tests_on_branch envAllOk "" "o/r" "b" "mutmut run" "python:3.12-slim"
            [] "pytest" 60 900) := by
  decide

/-- C8 witness: the amended theorem applied to a concrete mutmut-style
output with parseable counts and no score pattern. -/
theorem c8_score_derivation_witness :
    reStrykerScore "10 mutants, 7 killed, 3 survived" = none
      ∧ mutmutScore "10 mutants, 7 killed, 3 survived" = none
      ∧ 0 < (parseBranchMutation "10 mutants, 7 killed, 3 survived").total
          - (parseBranchMutation "10 mutants, 7 killed, 3 survived").noCoverage
      ∧ (parseBranchMutation "10 mutants, 7 killed, 3 survived").score
        = ((parseBranchMutation "10 mutants, 7 killed, 3 survived").killed : ℚ)
          / (((parseBranchMutation "10 mutants, 7 killed, 3 survived").total
            - (parseBranchMutation "10 mutants, 7 killed, 3 survived").noCoverage : Int) : ℚ)
          * 100 :=
  ⟨by decide, by decide, by decide,
    (c8_score_derivation "10 mutants, 7 killed, 3 survived" (by decide) (by decide)).1 (by decide)⟩

/-! ## The GitHub gateway (`github_tools.py`): branch creation with files -/

/-- A `GithubException` as the gateway sees it: the platform's own message
text (`e.data.get("message", str(e))`). -/
structure GhError where
  message : String
deriving DecidableEq, Repr

/-- Result of `repo.get_contents`: a single file (with its blob sha) or a
directory listing. -/
inductive ContentInfo
  | file (sha : String)
  | dir
deriving DecidableEq, Repr

/-- Backend oracle for the GitHub API calls issued by
`create_branch_with_files`: each field models one remote call, returning
either its result or a raised `GithubException`. -/
structure GithubBackend where
  getBranchSha : String → Except GhError String
  createRef : String → String → Except GhError Unit
  getContents : String → String → Except GhError ContentInfo
  updateFile : String → String → String → String → String → Except GhError Unit
  createFile : String → String → String → String → Except GhError Unit

/-- Remote operations, recorded in issue order so that theorems can speak
about which calls a code path performs. -/
inductive GhOp
  | getRepo (name : String)
  | getBranch (branch : String)
  | createRef (ref sha : String)
  | getContents (path ref : String)
  | updateFile (path message content sha branch : String)
  | createFile (path message content branch : String)
deriving DecidableEq, Repr

/-- State-changing remote operations. -/
def GhOp.isMutation : GhOp → Bool
  | .createRef _ _ => true
  | .updateFile _ _ _ _ _ => true
  | .createFile _ _ _ _ => true
  | _ => false

/-- Python `str.strip()` (whitespace at both ends). -/
def pyStrip (s : String) : String :=
  String.mk (((s.data.dropWhile pyWs).reverse.dropWhile pyWs).reverse)

/-- The per-file validation of `create_branch_with_files`
(`not content or len(content.strip()) < 10`). -/
def shortContent (content : String) : Bool :=
  content.isEmpty || (pyStrip content).length < 10

/-- File listing block of the success message. -/
def joinFileLines (files : List String) : String :=
  if files.isEmpty then "  (none)"
  else String.intercalate "\n" (files.map (fun f => "  - " ++ f))

/-- The success message of `create_branch_with_files`. -/
def branchSuccessMsg (branch_status repo_name branch_name base_branch : String)
    (files_created files_updated : List String) : String :=
  ("\n" ++ "SUCCESS" ++ ": Branch ")
    ++ (branch_status
      ++ (" and " ++ toString (files_created.length + files_updated.length)
        ++ " file(s) pushed!\n\n**Repository:** " ++ repo_name
        ++ "\n**Branch:** " ++ branch_name
        ++ "\n**Base:** " ++ base_branch
        ++ "\n\n**Files Created:** " ++ toString files_created.length ++ "\n"
        ++ joinFileLines files_created
        ++ "\n\n**Files Updated:** " ++ toString files_updated.length ++ "\n"
        ++ joinFileLines files_updated
        ++ "\n\n**Next Step:** Run tests on this branch using `run_tests_on_branch(\""
        ++ repo_name ++ "\", \"" ++ branch_name
        ++ "\", \"pytest\")`\nThen create a PR using `create_pr_with_changes`.\n"))

/-- The file-push loop of `create_branch_with_files` (step 3): per path,
probe existence with `get_contents`; a directory aborts with an `ERROR`;
an existing file is updated (an update failure falls back to `create`, as
the `except` clause around the probe also catches it); a missing file is
created; a failure inside the fallback `create` escapes to the outer
handler as `Error: <platform message>`. -/
def pushFilesLoop (be : GithubBackend) (branch_name commit_message branch_status repo_name base_branch : String) :
    List (String × String) → List String → List String → List GhOp → String × List GhOp
  | [], files_created, files_updated, log =>
    (branchSuccessMsg branch_status repo_name branch_name base_branch files_created files_updated, log)
  | (file_path, content) :: rest, files_created, files_updated, log =>
    let log := log ++ [GhOp.getContents file_path branch_name]
    match be.getContents file_path branch_name with
    | .ok .dir =>
      ("ERROR: \x27" ++ file_path ++ "\x27 is a directory in the repo (ref=\x27" ++ branch_name
        ++ "\x27), but file_changes expects file paths. Choose a file path like \x27dir/file.py\x27.",
        log)
    | .ok (.file sha) =>
      let log := log ++ [GhOp.updateFile file_path commit_message content sha branch_name]
      match be.updateFile file_path commit_message content sha branch_name with
      | .ok _ =>
        pushFilesLoop be branch_name commit_message branch_status repo_name base_branch
          rest files_created (files_updated ++ [file_path]) log
      | .error _ =>
        let log := log ++ [GhOp.createFile file_path commit_message content branch_name]
        match be.createFile file_path commit_message content branch_name with
        | .ok _ =>
          pushFilesLoop be branch_name commit_message branch_status repo_name base_branch
            rest (files_created ++ [file_path]) files_updated log
        | .error e => ("Error: " ++ e.message, log)
    | .error _ =>
      let log := log ++ [GhOp.createFile file_path commit_message content branch_name]
      match be.createFile file_path commit_message content branch_name with
      | .ok _ =>
        pushFilesLoop be branch_name commit_message branch_status repo_name base_branch
          rest (files_created ++ [file_path]) files_updated log
      | .error e => ("Error: " ++ e.message, log)

/-- Embedding of `create_branch_with_files` (lines 320–430): validate the
file map first (returning an `ERROR:` string before any branch or file
call); read the base branch sha; create the ref, downgrading a
"Reference already exists" failure to the non-fatal status
`already existed`; then push every file.  The second component records the
remote calls issued. -/
def create_branch_with_files (be : GithubBackend) (repo_name branch_name : String)
    (file_changes : List (String × String)) (commit_message : String)
    (base_branch : String := "main") : String × List GhOp :=
  let log0 : List GhOp := [GhOp.getRepo repo_name]
  if file_changes.isEmpty then
    ("ERROR: " ++ "file_changes cannot be empty. You must provide at least one file with its complete content.",
      log0)
  else
    match file_changes.find? (fun pc => shortContent pc.2) with
    | some pc =>
      ("ERROR: " ++ "File \x27" ++ pc.1
          ++ "\x27 has no content or content is too short. Provide the COMPLETE file content.",
        log0)
    | none =>
      let log1 := log0 ++ [GhOp.getBranch base_branch]
      match be.getBranchSha base_branch with
      | .error e => ("Error: " ++ e.message, log1)
      | .ok base_sha =>
        let log2 := log1 ++ [GhOp.createRef ("refs/heads/" ++ branch_name) base_sha]
        match be.createRef ("refs/heads/" ++ branch_name) base_sha with
        | .ok _ =>
          pushFilesLoop be branch_name commit_message "created" repo_name base_branch
            file_changes [] [] log2
        | .error e =>
          if substr "Reference already exists" e.message then
            pushFilesLoop be branch_name commit_message "already existed" repo_name base_branch
              file_changes [] [] log2
          else ("Error creating branch: " ++ e.message, log2)

/-! ## Claims C5 and C10 -/

/-- The push loop only ever appends to the operation log. -/
theorem pushFilesLoop_log_extends (be : GithubBackend)
    (bn cm bs rn bb : String) :
    ∀ (files : List (String × String)) (created updated : List String) (log : List GhOp),
      ∃ s, (pushFilesLoop be bn cm bs rn bb files created updated log).2 = log ++ s := by
  intro files
  induction files with
  | nil => intro created updated log; exact ⟨[], by simp [pushFilesLoop]⟩
  | cons pc rest ih =>
    intro created updated log
    obtain ⟨p, c⟩ := pc
    cases hgc : be.getContents p bn with
    | ok info =>
      cases info with
      | dir => exact ⟨[GhOp.getContents p bn], by simp [pushFilesLoop, hgc]⟩
      | file sha =>
        cases huf : be.updateFile p cm c sha bn with
        | ok u =>
          obtain ⟨s, hs⟩ := ih created (updated ++ [p])
            (log ++ [GhOp.getContents p bn] ++ [GhOp.updateFile p cm c sha bn])
          refine ⟨[GhOp.getContents p bn] ++ [GhOp.updateFile p cm c sha bn] ++ s, ?_⟩
          simp only [pushFilesLoop, hgc, huf]
          simp only [List.append_assoc] at hs ⊢
          simpa using hs
        | error u =>
          cases hcf : be.createFile p cm c bn with
          | ok v =>
            obtain ⟨s, hs⟩ := ih (created ++ [p]) updated
              (log ++ [GhOp.getContents p bn] ++ [GhOp.updateFile p cm c sha bn]
                ++ [GhOp.createFile p cm c bn])
            refine ⟨[GhOp.getContents p bn] ++ [GhOp.updateFile p cm c sha bn]
              ++ [GhOp.createFile p cm c bn] ++ s, ?_⟩
            simp only [pushFilesLoop, hgc, huf, hcf]
            simp only [List.append_assoc] at hs ⊢
            simpa using hs
          | error e =>
            exact ⟨[GhOp.getContents p bn] ++ [GhOp.updateFile p cm c sha bn]
              ++ [GhOp.createFile p cm c bn], by simp [pushFilesLoop, hgc, huf, hcf]⟩
    | error g =>
      cases hcf : be.createFile p cm c bn with
      | ok v =>
        obtain ⟨s, hs⟩ := ih (created ++ [p]) updated
          (log ++ [GhOp.getContents p bn] ++ [GhOp.createFile p cm c bn])
        refine ⟨[GhOp.getContents p bn] ++ [GhOp.createFile p cm c bn] ++ s, ?_⟩
        simp only [pushFilesLoop, hgc, hcf]
        simp only [List.append_assoc] at hs ⊢
        simpa using hs
      | error e =>
        exact ⟨[GhOp.getContents p bn] ++ [GhOp.createFile p cm c bn],
          by simp [pushFilesLoop, hgc, hcf]⟩

/-- When every pushed path is new (existence probe fails) and every create
succeeds, the push loop reports success with every file created. -/
theorem pushFilesLoop_all_new_fst (be : GithubBackend) (bn cm bs rn bb : String) :
    ∀ (files : List (String × String)),
      (∀ pc ∈ files, (∃ er, be.getContents pc.1 bn = Except.error er)
        ∧ be.createFile pc.1 cm pc.2 bn = Except.ok ()) →
      ∀ (created updated : List String) (log : List GhOp),
        (pushFilesLoop be bn cm bs rn bb files created updated log).1
          = branchSuccessMsg bs rn bn bb (created ++ files.map Prod.fst) updated := by
  intro files
  induction files with
  | nil => intro _ created updated log; simp [pushFilesLoop]
  | cons pc rest ih =>
    intro hall created updated log
    obtain ⟨p, c⟩ := pc
    obtain ⟨⟨er, hge⟩, hcf⟩ := hall (p, c) (by simp)
    simp only [pushFilesLoop, hge, hcf]
    have := ih (fun x hx => hall x (by simp [hx])) (created ++ [p]) updated
      ((log ++ [GhOp.getContents p bn]) ++ [GhOp.createFile p cm c bn])
    rw [this]
    simp

/-- Under the same conditions, a `createFile` call is issued for every
file in the map. -/
theorem pushFilesLoop_all_new_mem (be : GithubBackend) (bn cm bs rn bb : String) :
    ∀ (files : List (String × String)),
      (∀ pc ∈ files, (∃ er, be.getContents pc.1 bn = Except.error er)
        ∧ be.createFile pc.1 cm pc.2 bn = Except.ok ()) →
      ∀ (created updated : List String) (log : List GhOp),
        ∀ pc ∈ files,
          GhOp.createFile pc.1 cm pc.2 bn
            ∈ (pushFilesLoop be bn cm bs rn bb files created updated log).2 := by
  intro files
  induction files with
  | nil => intro _ created updated log pc h; cases h
  | cons hd rest ih =>
    intro hall created updated log pc hmem
    obtain ⟨p, c⟩ := hd
    obtain ⟨⟨er, hge⟩, hcf⟩ := hall (p, c) (by simp)
    simp only [pushFilesLoop, hge, hcf]
    rcases List.mem_cons.mp hmem with heq | htail
    · subst heq
      obtain ⟨s, hs⟩ := pushFilesLoop_log_extends be bn cm bs rn bb rest
        (created ++ [p]) updated ((log ++ [GhOp.getContents p bn]) ++ [GhOp.createFile p cm c bn])
      rw [hs]
      simp
    · exact ih (fun x hx => hall x (by simp [hx])) (created ++ [p]) updated _ pc htail

/-- C5.  When the target branch already exists (the ref-creation call
fails with the platform's "Reference already exists" message), the call
does not raise: it reports the non-fatal "already existed" status inside
a SUCCESS message, and the file pushes of the same call still proceed — a
`createFile` call is issued for every file in the map. -/
theorem c5_existing_branch_is_nonfatal (be : GithubBackend)
    (repo_name branch_name commit_message base_branch base_sha : String) (e : GhError)
    (file_changes : List (String × String))
    (hne : file_changes ≠ [])
    (hvalid : ∀ pc ∈ file_changes, shortContent pc.2 = false)
    (hbase : be.getBranchSha base_branch = Except.ok base_sha)
    (href : be.createRef ("refs/heads/" ++ branch_name) base_sha = Except.error e)
    (hmsg : substr "Reference already exists" e.message)
    (hfiles : ∀ pc ∈ file_changes, (∃ er, be.getContents pc.1 branch_name = Except.error er)
      ∧ be.createFile pc.1 commit_message pc.2 branch_name = Except.ok ()) :
    substr "already existed"
        (create_branch_with_files be repo_name branch_name file_changes commit_message base_branch).1
    ∧ substr "SUCCESS"
        (create_branch_with_files be repo_name branch_name file_changes commit_message base_branch).1
    ∧ ∀ pc ∈ file_changes,
        GhOp.createFile pc.1 commit_message pc.2 branch_name
          ∈ (create_branch_with_files be repo_name branch_name file_changes commit_message base_branch).2 := by
  have hempty : file_changes.isEmpty = false := by
    cases file_changes with
    | nil => exact absurd rfl hne
    | cons a l => rfl
  have hfind : file_changes.find? (fun pc => shortContent pc.2) = none := by
    rw [List.find?_eq_none]
    intro x hx
    simp [hvalid x hx]
  unfold create_branch_with_files
  simp only [hempty, hfind, hbase, href, hmsg, Bool.false_eq_true, if_false, if_true]
  refine ⟨?_, ?_, ?_⟩
  · rw [pushFilesLoop_all_new_fst be branch_name commit_message "already existed" repo_name
      base_branch file_changes hfiles [] []]
    unfold branchSuccessMsg
    exact substr_appendLeft _ (substr_appendRight (substr_self _) _)
  · rw [pushFilesLoop_all_new_fst be branch_name commit_message "already existed" repo_name
      base_branch file_changes hfiles [] []]
    unfold branchSuccessMsg
    exact substr_appendRight (substr_appendRight (substr_appendLeft _ (substr_self _)) _) _
  · exact pushFilesLoop_all_new_mem be branch_name commit_message "already existed" repo_name
      base_branch file_changes hfiles [] [] _

/-- A backend where the branch ref already exists, every content probe
misses and every create succeeds. -/
def beExisting : GithubBackend :=
  { getBranchSha := fun _ => Except.ok "abc123"
    createRef := fun _ _ => Except.error ⟨"Reference already exists"⟩
    getContents := fun _ _ => Except.error ⟨"Not Found"⟩
    updateFile := fun _ _ _ _ _ => Except.ok ()
    createFile := fun _ _ _ _ => Except.ok () }

/-- C5 witness: the theorem applied to a concrete one-file push onto an
existing branch. -/
theorem c5_existing_branch_is_nonfatal_witness :
    substr "already existed"
        (create_branch_with_files beExisting "o/r" "fix-1" [("app.py", "0123456789ab")] "msg" "main").1
    ∧ substr "SUCCESS"
        (create_branch_with_files beExisting "o/r" "fix-1" [("app.py", "0123456789ab")] "msg" "main").1
    ∧ GhOp.createFile "app.py" "msg" "0123456789ab" "fix-1"
        ∈ (create_branch_with_files beExisting "o/r" "fix-1" [("app.py", "0123456789ab")] "msg" "main").2 := by
  have h := c5_existing_branch_is_nonfatal beExisting "o/r" "fix-1" "msg" "main" "abc123"
    ⟨"Reference already exists"⟩ [("app.py", "0123456789ab")]
    (by decide) (by decide) rfl rfl (substr_self _)
    (fun pc _ => ⟨⟨⟨"Not Found"⟩, rfl⟩, rfl⟩)
  exact ⟨h.1, h.2.1, h.2.2 ("app.py", "0123456789ab") (by simp)⟩

/-- C10.  An empty file map, or any file whose stripped content is shorter
than 10 characters, aborts `create_branch_with_files` with an `ERROR:`
message before any branch- or file-affecting call: the only remote
operation issued is the repository lookup, so no branch is created and no
file is pushed. -/
theorem c10_validation_blocks_remote_ops (be : GithubBackend)
    (repo_name branch_name commit_message base_branch : String)
    (file_changes : List (String × String))
    (h : file_changes = [] ∨ ∃ pc ∈ file_changes, shortContent pc.2 = true) :
    (∃ t, (create_branch_with_files be repo_name branch_name file_changes commit_message base_branch).1
      = "ERROR: " ++ t)
    ∧ (create_branch_with_files be repo_name branch_name file_changes commit_message base_branch).2
      = [GhOp.getRepo repo_name] := by
  rcases h with hempty | ⟨pc, hmem, hshort⟩
  · subst hempty
    exact ⟨⟨_, rfl⟩, rfl⟩
  · have hne : file_changes.isEmpty = false := by
      cases file_changes with
      | nil => cases hmem
      | cons a l => rfl
    have hsome : ∃ pc2, file_changes.find? (fun pc => shortContent pc.2) = some pc2 := by
      rw [← Option.isSome_iff_exists, List.find?_isSome]
      exact ⟨pc, hmem, hshort⟩
    obtain ⟨pc2, hfind⟩ := hsome
    unfold create_branch_with_files
    simp only [hne, hfind, Bool.false_eq_true, if_false]
    exact ⟨⟨_, rfl⟩, by trivial⟩

/-- C10 witness: the theorem applied at an empty file map and at a file
with too-short content. -/
theorem c10_validation_blocks_remote_ops_witness :
    ((∃ t, (create_branch_with_files beExisting "o/r" "fix-1" [] "msg" "main").1 = "ERROR: " ++ t)
      ∧ (create_branch_with_files beExisting "o/r" "fix-1" [] "msg" "main").2
        = [GhOp.getRepo "o/r"])
    ∧ ((∃ t, (create_branch_with_files beExisting "o/r" "fix-1" [("a.py", "  hi  ")] "msg" "main").1
        = "ERROR: " ++ t)
      ∧ (create_branch_with_files beExisting "o/r" "fix-1" [("a.py", "  hi  ")] "msg" "main").2
        = [GhOp.getRepo "o/r"]) :=
  ⟨c10_validation_blocks_remote_ops beExisting "o/r" "fix-1" "msg" "main" [] (Or.inl rfl),
    c10_validation_blocks_remote_ops beExisting "o/r" "fix-1" "msg" "main" [("a.py", "  hi  ")]
      (Or.inr ⟨("a.py", "  hi  "), by simp, by decide⟩)⟩

/-! ## CI status resolution (`get_ci_status`) -/

/-- A GitHub Actions workflow run as `get_ci_status` reads it. -/
structure WorkflowRun where
  status : String
  conclusion : String
deriving DecidableEq, Repr

/-- The combined commit status (`commit.get_combined_status()`). -/
structure CombinedStatus where
  state : String
  total_count : Nat
deriving DecidableEq, Repr

/-- Backend oracle for `get_ci_status`: the native workflow-run list for
the commit and the combined status, each possibly raising. -/
structure CiBackend where
  workflowRuns : Except Unit (List WorkflowRun)
  combinedStatus : Except Unit CombinedStatus
deriving Repr

/-- One step of the run-scanning loop of `get_ci_status` over the
accumulator `(all_completed, any_failed, any_cancelled)`. -/
def runsStep (acc : Bool × Bool × Bool) (r : WorkflowRun) : Bool × Bool × Bool :=
  if r.status ≠ "completed" then (false, acc.2.1, acc.2.2)
  else if r.conclusion = "failure" ∨ r.conclusion = "timed_out" then (acc.1, true, acc.2.2)
  else if r.conclusion = "cancelled" then (acc.1, acc.2.1, true)
  else acc

/-- The run-scanning loop of `get_ci_status`. -/
def runsFold (runs : List WorkflowRun) : Bool × Bool × Bool :=
  runs.foldl runsStep (true, false, false)

/-- The combined-status fallback of `get_ci_status` (only trusted when
`total_count > 0`; otherwise, and on an exception, the final
`return PENDING` is reached). -/
def combinedResolve (be : CiBackend) : String :=
  match be.combinedStatus with
  | .ok st =>
    if st.total_count > 0 then
      if st.state = "success" then "success"
      else if st.state = "pending" then "pending"
      else if st.state = "failure" then "failure"
      else st.state
    else "pending"
  | .error _ => "pending"

/-- Embedding of `get_ci_status` (lines 915–981): native workflow runs
first (`in_progress` unless every run is completed, else `failure` on any
failed/timed-out conclusion, else `cancelled`, else `success`); the
combined status only when no native runs exist (or the query raised); and
`pending` when neither source yields anything. -/
def get_ci_status (be : CiBackend) : String :=
  match be.workflowRuns with
  | .ok runs =>
    if runs.length > 0 then
      let f := runsFold runs
      if !f.1 then "in_progress"
      else if f.2.1 then "failure"
      else if f.2.2 then "cancelled"
      else "success"
    else combinedResolve be
  | .error _ => combinedResolve be

/-! ## Claim C6 -/

theorem runsFold_go (runs : List WorkflowRun) :
    ∀ a b c : Bool,
      List.foldl runsStep (a, b, c) runs
        = (a && runs.all (fun r => r.status == "completed"),
          b || runs.any (fun r =>
            r.status == "completed" && (r.conclusion == "failure" || r.conclusion == "timed_out")),
          c || runs.any (fun r => r.status == "completed" && r.conclusion == "cancelled")) := by
  induction runs with
  | nil => intro a b c; simp
  | cons r rest ih =>
    intro a b c
    simp only [List.foldl_cons, List.all_cons, List.any_cons]
    by_cases h1 : r.status = "completed"
    · by_cases h2 : r.conclusion = "failure" ∨ r.conclusion = "timed_out"
      · have hnc : (r.conclusion == "cancelled") = false := by
          rcases h2 with h | h <;> simp [h]
        have hstep : runsStep (a, b, c) r = (a, true, c) := by
          simp [runsStep, h1, h2]
        rw [hstep, ih]
        rcases h2 with h | h <;> simp [h1, h, hnc, Bool.and_assoc, Bool.or_assoc]
      · by_cases h3 : r.conclusion = "cancelled"
        · have hstep : runsStep (a, b, c) r = (a, b, true) := by
            simp [runsStep, h1, h2, h3]
          rw [hstep, ih]
          have hf : (r.conclusion == "failure") = false := by simp [h3]
          have ht : (r.conclusion == "timed_out") = false := by simp [h3]
          have hcc : (r.conclusion == "cancelled") = true := by simp [h3]
          simp [h1, hf, ht, hcc, Bool.and_assoc, Bool.or_assoc]
        · have hstep : runsStep (a, b, c) r = (a, b, c) := by
            simp [runsStep, h1, h2, h3]
          rw [hstep, ih]
          have hf : (r.conclusion == "failure") = false := by
            simp only [beq_eq_false_iff_ne, ne_eq]
            intro hc; exact h2 (Or.inl hc)
          have ht : (r.conclusion == "timed_out") = false := by
            simp only [beq_eq_false_iff_ne, ne_eq]
            intro hc; exact h2 (Or.inr hc)
          have hcc : (r.conclusion == "cancelled") = false := by simp [h3]
          simp [h1, hf, ht, hcc, Bool.and_assoc, Bool.or_assoc]
    · have hstep : runsStep (a, b, c) r = (false, b, c) := by
        simp [runsStep, h1]
      rw [hstep, ih]
      have hsc : (r.status == "completed") = false := by simp [h1]
      simp [hsc, Bool.and_assoc, Bool.or_assoc]

/-- C6.  CI status resolution order: with native workflow runs present,
the status is `in_progress` unless every run reports completed, else
`failure` when any (completed) run concluded `failure` or `timed_out`,
else `cancelled` when any was cancelled, else `success`; with no native
runs the combined-status aggregate is consulted; and when that aggregate
is absent or empty too, the result is `pending`. -/
theorem c6_ci_status_resolution (be : CiBackend) (runs : List WorkflowRun)
    (hruns : be.workflowRuns = Except.ok runs) :
    (runs ≠ [] →
      get_ci_status be
        = if !(runs.all (fun r => r.status == "completed")) then "in_progress"
          else if runs.any (fun r =>
              r.status == "completed" && (r.conclusion == "failure" || r.conclusion == "timed_out"))
            then "failure"
          else if runs.any (fun r => r.status == "completed" && r.conclusion == "cancelled")
            then "cancelled"
          else "success")
    ∧ (runs = [] → get_ci_status be = combinedResolve be)
    ∧ (runs = [] →
        (be.combinedStatus = Except.error ()
          ∨ ∃ st, be.combinedStatus = Except.ok st ∧ st.total_count = 0) →
        get_ci_status be = "pending") := by
  refine ⟨?_, ?_, ?_⟩
  · intro hne
    have hlen : runs.length > 0 := List.length_pos.mpr hne
    simp only [get_ci_status, hruns, if_pos hlen]
    rw [runsFold, runsFold_go]
    simp
  · intro hnil
    subst hnil
    simp [get_ci_status, hruns]
  · intro hnil hcs
    subst hnil
    simp only [get_ci_status, hruns, List.length_nil, gt_iff_lt, Nat.lt_irrefl, if_false]
    rcases hcs with herr | ⟨st, hok, hzero⟩
    · simp [combinedResolve, herr]
    · simp [combinedResolve, hok, hzero]

/-- A commit with two native runs, one failed. -/
def ciBackendSample : CiBackend :=
  { workflowRuns := Except.ok
      [{ status := "completed", conclusion := "failure" },
        { status := "completed", conclusion := "success" }]
    combinedStatus := Except.error () }

/-- C6 witness: the theorem applied at a concrete run list with one failed
completed run. -/
theorem c6_ci_status_resolution_witness : get_ci_status ciBackendSample = "failure" := by
  have h := (c6_ci_status_resolution ciBackendSample
    [{ status := "completed", conclusion := "failure" },
      { status := "completed", conclusion := "success" }] rfl).1 (by decide)
  rw [h]
  decide

/-! ## CI monitoring loops (`ci_tools.monitor_ci_for_pr`,
`github_tools.wait_for_ci_completion`) -/

/-- Terminal outcome of the `monitor_ci_for_pr` polling loop. -/
inductive MonitorOutcome
  | passed (duration : Nat)
  | failedRun (duration : Nat) (failedJobs : List String) (logs : String)
  | cancelledRun (duration : Nat)
  | timedOut (lastStatus : Option String) (waited : Nat)
deriving DecidableEq, Repr

/-- Embedding of the `while True` loop of `monitor_ci_for_pr`
(lines 132–231) in discrete time: at tick `k` the elapsed wall-clock time
is `k · poll_interval`; `query k` is the status returned by
`get_ci_status` at that tick, `none` when the loop's own defensive
per-tick handler fired (the `except` clause logs and sets
`status = None`, treating the tick as no new information).  A terminal
status returns its report; otherwise the loop returns the timeout report
once `elapsed ≥ timeout_seconds`, else sleeps and ticks again.  The `Nat`
fuel only bounds the recursion depth; `timeout_seconds + 1` ticks always
suffice (see `c7_transient_failures_and_timeout`). -/
def monitorCiLoop (query : Nat → Option String) (failedJobs : List String) (logs : String)
    (timeoutSeconds pollInterval : Nat) : Nat → Nat → Option MonitorOutcome
  | 0, _ => none
  | fuel + 1, k =>
    let elapsed := k * pollInterval
    match query k with
    | some s =>
      if s = "success" ∨ s = "failure" ∨ s = "cancelled" then
        some (if s = "success" then .passed elapsed
          else if s = "failure" then .failedRun elapsed failedJobs logs
          else .cancelledRun elapsed)
      else if elapsed ≥ timeoutSeconds then some (.timedOut (some s) elapsed)
      else monitorCiLoop query failedJobs logs timeoutSeconds pollInterval fuel (k + 1)
    | none =>
      if elapsed ≥ timeoutSeconds then some (.timedOut none elapsed)
      else monitorCiLoop query failedJobs logs timeoutSeconds pollInterval fuel (k + 1)

/-- ASCII uppering (model of `str.upper()` on the ASCII status values). -/
def asciiUpper (c : Char) : Char :=
  if 'a' ≤ c ∧ c ≤ 'z' then Char.ofNat (c.toNat - 32) else c

/-- ASCII-uppered copy of a string. -/
def strUpper (s : String) : String := String.mk (s.data.map asciiUpper)

/-- A tick on which the remote CI queries fail transiently (network
error): both remote-call blocks inside `get_ci_status` raise, and both
are swallowed by its `except Exception: pass` clauses
(`github_tools.py:958,977`), so the tick resolves to `pending`. -/
def transientTick (be : CiBackend) : Prop :=
  be.workflowRuns = Except.error () ∧ be.combinedStatus = Except.error ()

/-- Terminal outcome of the `wait_for_ci_completion` polling loop: the
loop either observed a terminal status from `get_ci_status`, or fell out
of the `while` on the timeout. -/
inductive WaitOutcome
  | completed (status : String)
  | timedOut
deriving DecidableEq, Repr

/-- The `while` loop of `wait_for_ci_completion` (lines 1006–1017): the
condition `elapsed < timeout_seconds` is checked before each tick; each
tick's status is produced by `get_ci_status` applied to that tick's remote
state — `get_ci_status` handles its own exceptions internally and cannot
raise, so a transient failure yields the non-terminal status `pending`
and the loop simply continues. -/
def waitForCiLoop (ciQuery : Nat → CiBackend) (timeoutSeconds pollInterval : Nat) :
    Nat → Nat → Option WaitOutcome
  | 0, _ => none
  | fuel + 1, k =>
    if k * pollInterval < timeoutSeconds then
      if get_ci_status (ciQuery k) = "success" ∨ get_ci_status (ciQuery k) = "failure"
          ∨ get_ci_status (ciQuery k) = "cancelled" then
        some (.completed (get_ci_status (ciQuery k)))
      else waitForCiLoop ciQuery timeoutSeconds pollInterval fuel (k + 1)
    else some .timedOut

/-- Rendering of the `wait_for_ci_completion` outcomes (failure logs are
fetched only in the failure case). -/
def renderWaitOutcome (failureLogs : String) (timeoutSeconds : Nat) : WaitOutcome → String
  | .completed s =>
    if s = "failure" then "CI_STATUS: " ++ strUpper s ++ "\n\n### Failure Logs\n" ++ failureLogs
    else "CI_STATUS: " ++ strUpper s
  | .timedOut => "CI_STATUS: TIMEOUT (exceeded " ++ toString timeoutSeconds ++ "s)"

/-- Embedding of `wait_for_ci_completion` (lines 984–1022): the
function-level `except GithubException` covers only the pre-loop
`repo.get_pull` resolution (`getPull`), turning its failure into a
`CI_STATUS: ERROR` result before any polling; the per-tick status queries
inside the loop cannot raise (see `waitForCiLoop`). -/
def wait_for_ci_completion (getPull : Except String Unit) (ciQuery : Nat → CiBackend)
    (failureLogs : String) (timeoutSeconds pollInterval fuel : Nat) : Option String :=
  match getPull with
  | .error m => some ("CI_STATUS: ERROR - " ++ m)
  | .ok _ =>
    (waitForCiLoop ciQuery timeoutSeconds pollInterval fuel 0).map
      (renderWaitOutcome failureLogs timeoutSeconds)

/-- The `CIRunResult` dataclass of `ci_tools.py`. -/
structure CIRunResult where
  status : String
  duration_seconds : Nat
  failed_jobs : List String
  error_logs : String
deriving DecidableEq, Repr

/-- The `while` loop of `CIMonitor.monitor_pr` (ci_tools.py:65–81): the
per-tick status is again `get_ci_status`, which cannot raise; a terminal
`failure` returns a failure `CIRunResult` with logs and failed jobs, any
other terminal status returns a success result, and falling out of the
`while` returns the distinct `CIRunResult` with status `unknown` and
`error_logs = "CI timed out"`. -/
def monitorPrLoop (ciQuery : Nat → CiBackend) (failedJobs : List String) (logs : String)
    (timeoutSeconds pollInterval : Nat) : Nat → Nat → Option CIRunResult
  | 0, _ => none
  | fuel + 1, k =>
    if k * pollInterval < timeoutSeconds then
      if get_ci_status (ciQuery k) = "success" ∨ get_ci_status (ciQuery k) = "failure"
          ∨ get_ci_status (ciQuery k) = "cancelled" then
        if get_ci_status (ciQuery k) = "failure" then
          some { status := "failure", duration_seconds := k * pollInterval,
                 failed_jobs := failedJobs, error_logs := logs }
        else
          some { status := "success", duration_seconds := k * pollInterval,
                 failed_jobs := [], error_logs := "" }
      else monitorPrLoop ciQuery failedJobs logs timeoutSeconds pollInterval fuel (k + 1)
    else
      some { status := "unknown", duration_seconds := timeoutSeconds,
             failed_jobs := [], error_logs := "CI timed out" }

/-! ## Claim C7 -/

/-- With a positive poll interval the monitor loop always returns, given
fuel covering the timeout. -/
theorem monitorCiLoop_total (query : Nat → Option String) (failedJobs : List String)
    (logs : String) (timeoutSeconds pollInterval : Nat) (hpoll : 0 < pollInterval) :
    ∀ fuel k, timeoutSeconds + 1 ≤ k + fuel → 1 ≤ fuel →
      ∃ r, monitorCiLoop query failedJobs logs timeoutSeconds pollInterval fuel k = some r := by
  intro fuel
  induction fuel with
  | zero => intro k _ h1; omega
  | succ fuel ih =>
    intro k hk _
    unfold monitorCiLoop
    cases hq : query k with
    | some s =>
      simp only [hq]
      by_cases hterm : s = "success" ∨ s = "failure" ∨ s = "cancelled"
      · exact ⟨_, by rw [if_pos hterm]⟩
      · rw [if_neg hterm]
        by_cases htime : k * pollInterval ≥ timeoutSeconds
        · exact ⟨_, by rw [if_pos htime]⟩
        · rw [if_neg htime]
          have hklt : k < timeoutSeconds := by
            have : k ≤ k * pollInterval := Nat.le_mul_of_pos_right k hpoll
            omega
          exact ih (k + 1) (by omega) (by omega)
    | none =>
      simp only [hq]
      by_cases htime : k * pollInterval ≥ timeoutSeconds
      · exact ⟨_, by rw [if_pos htime]⟩
      · rw [if_neg htime]
        have hklt : k < timeoutSeconds := by
          have : k ≤ k * pollInterval := Nat.le_mul_of_pos_right k hpoll
          omega
        exact ih (k + 1) (by omega) (by omega)

/-- When every status query fails transiently, the loop still reaches the
timeout outcome (it is never aborted by the failures). -/
theorem monitorCiLoop_all_errors (query : Nat → Option String) (failedJobs : List String)
    (logs : String) (timeoutSeconds pollInterval : Nat) (hpoll : 0 < pollInterval)
    (hall : ∀ k, query k = none) :
    ∀ fuel k, timeoutSeconds + 1 ≤ k + fuel → 1 ≤ fuel →
      ∃ w, monitorCiLoop query failedJobs logs timeoutSeconds pollInterval fuel k
          = some (.timedOut none w) ∧ timeoutSeconds ≤ w := by
  intro fuel
  induction fuel with
  | zero => intro k _ h1; omega
  | succ fuel ih =>
    intro k hk _
    unfold monitorCiLoop
    simp only [hall k]
    by_cases htime : k * pollInterval ≥ timeoutSeconds
    · exact ⟨k * pollInterval, by rw [if_pos htime], htime⟩
    · rw [if_neg htime]
      have hklt : k < timeoutSeconds := by
        have : k ≤ k * pollInterval := Nat.le_mul_of_pos_right k hpoll
        omega
      exact ih (k + 1) (by omega) (by omega)

/-- The loop reports a CI failure only when some tick's status query
actually returned "failure" — neither a timeout nor any number of
transient query errors is ever rendered as a failure. -/
theorem monitorCiLoop_failure_origin (query : Nat → Option String) (failedJobs : List String)
    (logs : String) (timeoutSeconds pollInterval : Nat) :
    ∀ fuel k d js lg,
      monitorCiLoop query failedJobs logs timeoutSeconds pollInterval fuel k
          = some (.failedRun d js lg) →
      ∃ j, query j = some "failure" := by
  intro fuel
  induction fuel with
  | zero => intro k d js lg h; cases h
  | succ fuel ih =>
    intro k d js lg h
    unfold monitorCiLoop at h
    revert h
    cases hq : query k with
    | some s =>
      simp only [hq]
      by_cases hterm : s = "success" ∨ s = "failure" ∨ s = "cancelled"
      · rw [if_pos hterm]
        intro h
        by_cases hs : s = "success"
        · rw [if_pos hs] at h; cases h
        · rw [if_neg hs] at h
          by_cases hf : s = "failure"
          · exact ⟨k, by rw [hq, hf]⟩
          · rw [if_neg hf] at h; cases h
      · rw [if_neg hterm]
        by_cases htime : k * pollInterval ≥ timeoutSeconds
        · rw [if_pos htime]; intro h; cases h
        · rw [if_neg htime]; intro h; exact ih (k + 1) d js lg h
    | none =>
      simp only [hq]
      by_cases htime : k * pollInterval ≥ timeoutSeconds
      · rw [if_pos htime]; intro h; cases h
      · rw [if_neg htime]; intro h; exact ih (k + 1) d js lg h

/-- A transiently failing tick resolves to the non-terminal status
`pending`: every remote call of `get_ci_status` sits inside
`try ... except Exception: pass`, so the failure never escapes the tick. -/
theorem get_ci_status_transient (be : CiBackend)
    (h1 : be.workflowRuns = Except.error ()) (h2 : be.combinedStatus = Except.error ()) :
    get_ci_status be = "pending" := by
  simp [get_ci_status, combinedResolve, h1, h2]

/-- With a positive poll interval the `wait_for_ci_completion` loop always
returns, given fuel covering the timeout. -/
theorem waitForCiLoop_total (ciQuery : Nat → CiBackend) (timeoutSeconds pollInterval : Nat)
    (hpoll : 0 < pollInterval) :
    ∀ fuel k, timeoutSeconds + 1 ≤ k + fuel → 1 ≤ fuel →
      ∃ r, waitForCiLoop ciQuery timeoutSeconds pollInterval fuel k = some r := by
  intro fuel
  induction fuel with
  | zero => intro k _ h1; omega
  | succ fuel ih =>
    intro k hk _
    unfold waitForCiLoop
    by_cases hlt : k * pollInterval < timeoutSeconds
    · rw [if_pos hlt]
      by_cases hterm : get_ci_status (ciQuery k) = "success"
          ∨ get_ci_status (ciQuery k) = "failure" ∨ get_ci_status (ciQuery k) = "cancelled"
      · exact ⟨_, by rw [if_pos hterm]⟩
      · rw [if_neg hterm]
        have hklt : k < timeoutSeconds := by
          have : k ≤ k * pollInterval := Nat.le_mul_of_pos_right k hpoll
          omega
        exact ih (k + 1) (by omega) (by omega)
    · exact ⟨_, by rw [if_neg hlt]⟩

/-- When every tick fails transiently, every tick resolves to `pending`
and the `wait_for_ci_completion` loop polls on to the distinct timeout
outcome — no tick's failure ends the wait. -/
theorem waitForCiLoop_all_transient (ciQuery : Nat → CiBackend)
    (timeoutSeconds pollInterval : Nat) (hpoll : 0 < pollInterval)
    (hall : ∀ k, transientTick (ciQuery k)) :
    ∀ fuel k, timeoutSeconds + 1 ≤ k + fuel → 1 ≤ fuel →
      waitForCiLoop ciQuery timeoutSeconds pollInterval fuel k = some WaitOutcome.timedOut := by
  intro fuel
  induction fuel with
  | zero => intro k _ h1; omega
  | succ fuel ih =>
    intro k hk _
    have hp : get_ci_status (ciQuery k) = "pending" :=
      get_ci_status_transient (ciQuery k) (hall k).1 (hall k).2
    unfold waitForCiLoop
    by_cases hlt : k * pollInterval < timeoutSeconds
    · rw [if_pos hlt, hp]
      rw [if_neg (by decide)]
      have hklt : k < timeoutSeconds := by
        have : k ≤ k * pollInterval := Nat.le_mul_of_pos_right k hpoll
        omega
      exact ih (k + 1) (by omega) (by omega)
    · rw [if_neg hlt]

/-- A terminal status returned by the `wait_for_ci_completion` loop was
actually observed on some tick; in particular a failure is reported only
when a tick's query returned "failure". -/
theorem waitForCiLoop_completed_origin (ciQuery : Nat → CiBackend)
    (timeoutSeconds pollInterval : Nat) :
    ∀ fuel k s, waitForCiLoop ciQuery timeoutSeconds pollInterval fuel k
        = some (WaitOutcome.completed s) →
      ∃ j, get_ci_status (ciQuery j) = s := by
  intro fuel
  induction fuel with
  | zero => intro k s h; cases h
  | succ fuel ih =>
    intro k s h
    unfold waitForCiLoop at h
    by_cases hlt : k * pollInterval < timeoutSeconds
    · rw [if_pos hlt] at h
      by_cases hterm : get_ci_status (ciQuery k) = "success"
          ∨ get_ci_status (ciQuery k) = "failure" ∨ get_ci_status (ciQuery k) = "cancelled"
      · rw [if_pos hterm] at h
        simp only [Option.some.injEq, WaitOutcome.completed.injEq] at h
        exact ⟨k, h⟩
      · rw [if_neg hterm] at h
        exact ih (k + 1) s h
    · rw [if_neg hlt] at h
      simp at h

/-- When every tick fails transiently, `CIMonitor.monitor_pr` polls on to
its distinct timeout result (`status = unknown`, `error_logs` saying the
CI timed out) — never a failure result. -/
theorem monitorPrLoop_all_transient (ciQuery : Nat → CiBackend)
    (failedJobs : List String) (logs : String) (timeoutSeconds pollInterval : Nat)
    (hpoll : 0 < pollInterval) (hall : ∀ k, transientTick (ciQuery k)) :
    ∀ fuel k, timeoutSeconds + 1 ≤ k + fuel → 1 ≤ fuel →
      monitorPrLoop ciQuery failedJobs logs timeoutSeconds pollInterval fuel k
        = some { status := "unknown", duration_seconds := timeoutSeconds,
                 failed_jobs := [], error_logs := "CI timed out" } := by
  intro fuel
  induction fuel with
  | zero => intro k _ h1; omega
  | succ fuel ih =>
    intro k hk _
    have hp : get_ci_status (ciQuery k) = "pending" :=
      get_ci_status_transient (ciQuery k) (hall k).1 (hall k).2
    unfold monitorPrLoop
    by_cases hlt : k * pollInterval < timeoutSeconds
    · rw [if_pos hlt, hp]
      rw [if_neg (by decide)]
      have hklt : k < timeoutSeconds := by
        have : k ≤ k * pollInterval := Nat.le_mul_of_pos_right k hpoll
        omega
      exact ih (k + 1) (by omega) (by omega)
    · rw [if_neg hlt]

/-- `CIMonitor.monitor_pr` returns a failure result only when some tick's
query actually resolved to "failure" — neither a timeout nor transient
failures produce one. -/
theorem monitorPrLoop_failure_origin (ciQuery : Nat → CiBackend)
    (failedJobs : List String) (logs : String) (timeoutSeconds pollInterval : Nat) :
    ∀ fuel k r, monitorPrLoop ciQuery failedJobs logs timeoutSeconds pollInterval fuel k
          = some r →
      r.status = "failure" → ∃ j, get_ci_status (ciQuery j) = "failure" := by
  intro fuel
  induction fuel with
  | zero => intro k r h _; cases h
  | succ fuel ih =>
    intro k r h hst
    unfold monitorPrLoop at h
    by_cases hlt : k * pollInterval < timeoutSeconds
    · rw [if_pos hlt] at h
      by_cases hterm : get_ci_status (ciQuery k) = "success"
          ∨ get_ci_status (ciQuery k) = "failure" ∨ get_ci_status (ciQuery k) = "cancelled"
      · rw [if_pos hterm] at h
        by_cases hf : get_ci_status (ciQuery k) = "failure"
        · exact ⟨k, hf⟩
        · rw [if_neg hf] at h
          simp only [Option.some.injEq] at h
          subst h
          simp at hst
      · rw [if_neg hterm] at h
        exact ih (k + 1) r h hst
    · rw [if_neg hlt] at h
      simp only [Option.some.injEq] at h
      subst h
      simp at hst

/-- C7.  For every CI polling loop of the repository, a transient
status-query failure on one tick never terminates the loop, and exceeding
the timeout yields a distinct terminal timeout outcome, never reported as
a CI failure.  In `monitor_ci_for_pr` the defensive per-tick handler turns
any tick-level problem into "no new information" (`query k = none`), and
the loop still terminates, reaching its distinct `timedOut` outcome even
on an all-failing trace, while a `failedRun` report requires a tick that
actually returned "failure".  In `wait_for_ci_completion` and
`CIMonitor.monitor_pr` the per-tick query is `get_ci_status`, which
swallows every remote exception internally and resolves a transient
failure to the non-terminal "pending", so polling continues to the
distinct TIMEOUT string (resp. the `unknown`/"CI timed out" result), and
a failure is reported only when some tick's query resolved to "failure". -/
theorem c7_transient_failures_and_timeout
    (query : Nat → Option String) (ciQuery : Nat → CiBackend)
    (failedJobs : List String) (logs failureLogs : String)
    (timeoutSeconds pollInterval : Nat) (hpoll : 0 < pollInterval) :
    (∃ r, monitorCiLoop query failedJobs logs timeoutSeconds pollInterval (timeoutSeconds + 1) 0
      = some r)
    ∧ ((∀ k, query k = none) →
      ∃ w, monitorCiLoop query failedJobs logs timeoutSeconds pollInterval (timeoutSeconds + 1) 0
          = some (.timedOut none w) ∧ timeoutSeconds ≤ w)
    ∧ (∀ fuel k d js lg,
        monitorCiLoop query failedJobs logs timeoutSeconds pollInterval fuel k
            = some (.failedRun d js lg) →
        ∃ j, query j = some "failure")
    ∧ (∀ k, transientTick (ciQuery k) → get_ci_status (ciQuery k) = "pending")
    ∧ (∃ r, waitForCiLoop ciQuery timeoutSeconds pollInterval (timeoutSeconds + 1) 0 = some r)
    ∧ ((∀ k, transientTick (ciQuery k)) →
      waitForCiLoop ciQuery timeoutSeconds pollInterval (timeoutSeconds + 1) 0
        = some WaitOutcome.timedOut)
    ∧ (∀ fuel k s, waitForCiLoop ciQuery timeoutSeconds pollInterval fuel k
        = some (WaitOutcome.completed s) → ∃ j, get_ci_status (ciQuery j) = s)
    ∧ ((∀ k, transientTick (ciQuery k)) →
      wait_for_ci_completion (Except.ok ()) ciQuery failureLogs timeoutSeconds pollInterval
          (timeoutSeconds + 1)
        = some ("CI_STATUS: TIMEOUT (exceeded " ++ toString timeoutSeconds ++ "s)"))
    ∧ ((∀ k, transientTick (ciQuery k)) →
      monitorPrLoop ciQuery failedJobs logs timeoutSeconds pollInterval (timeoutSeconds + 1) 0
        = some { status := "unknown", duration_seconds := timeoutSeconds,
                 failed_jobs := [], error_logs := "CI timed out" })
    ∧ (∀ fuel k r, monitorPrLoop ciQuery failedJobs logs timeoutSeconds pollInterval fuel k
        = some r → r.status = "failure" → ∃ j, get_ci_status (ciQuery j) = "failure") :=
  ⟨monitorCiLoop_total query failedJobs logs timeoutSeconds pollInterval hpoll
      (timeoutSeconds + 1) 0 (by omega) (by omega),
    fun hall => monitorCiLoop_all_errors query failedJobs logs timeoutSeconds pollInterval hpoll
      hall (timeoutSeconds + 1) 0 (by omega) (by omega),
    monitorCiLoop_failure_origin query failedJobs logs timeoutSeconds pollInterval,
    fun k hk => get_ci_status_transient (ciQuery k) hk.1 hk.2,
    waitForCiLoop_total ciQuery timeoutSeconds pollInterval hpoll
      (timeoutSeconds + 1) 0 (by omega) (by omega),
    fun hall => waitForCiLoop_all_transient ciQuery timeoutSeconds pollInterval hpoll hall
      (timeoutSeconds + 1) 0 (by omega) (by omega),
    waitForCiLoop_completed_origin ciQuery timeoutSeconds pollInterval,
    fun hall => by
      unfold wait_for_ci_completion
      rw [waitForCiLoop_all_transient ciQuery timeoutSeconds pollInterval hpoll hall
        (timeoutSeconds + 1) 0 (by omega) (by omega)]
      rfl,
    fun hall => monitorPrLoop_all_transient ciQuery failedJobs logs timeoutSeconds pollInterval
      hpoll hall (timeoutSeconds + 1) 0 (by omega) (by omega),
    monitorPrLoop_failure_origin ciQuery failedJobs logs timeoutSeconds pollInterval⟩

/-- A remote state whose every query fails transiently. -/
def beTransient : CiBackend :=
  { workflowRuns := Except.error (), combinedStatus := Except.error () }

/-- C7 witness: the theorem applied to concrete all-transiently-failing
traces of all three loops. -/
theorem c7_transient_failures_and_timeout_witness :
    0 < 30
    ∧ (∃ w, monitorCiLoop (fun _ => none) [] "" 60 30 61 0
        = some (.timedOut none w) ∧ 60 ≤ w)
    ∧ waitForCiLoop (fun _ => beTransient) 60 30 61 0 = some WaitOutcome.timedOut
    ∧ monitorPrLoop (fun _ => beTransient) [] "" 60 30 61 0
        = some { status := "unknown", duration_seconds := 60,
                 failed_jobs := [], error_logs := "CI timed out" } :=
  ⟨by decide,
    (c7_transient_failures_and_timeout (fun _ => none) (fun _ => beTransient) [] "" "" 60 30
      (by decide)).2.1 (fun _ => rfl),
    (c7_transient_failures_and_timeout (fun _ => none) (fun _ => beTransient) [] "" "" 60 30
      (by decide)).2.2.2.2.2.1 (fun _ => ⟨rfl, rfl⟩),
    (c7_transient_failures_and_timeout (fun _ => none) (fun _ => beTransient) [] "" "" 60 30
      (by decide)).2.2.2.2.2.2.2.2.1 (fun _ => ⟨rfl, rfl⟩)⟩

end CapableCore
